import Mathlib

/-!
# Verification of the banko-generator core (plate generator, validator, prank calculator)

Shallow embedding of `src/app/utils/plateGenerator.ts`, `src/app/utils/validator.ts`
and `src/app/utils/prankCalculator.ts`.  JavaScript's `Math.random()`-driven control
flow is embedded by threading an explicit stream of natural numbers (`RandSrc`): each
call to the source's `randomInt(min, max)` consumes one value `v` of the stream and
yields `min + v % (max - min + 1)`, so every run of the source corresponds to some
stream and every stream corresponds to a deterministic run.  Fallible code returns
`Except GenError`.
-/

set_option maxRecDepth 10000

-- ============================================================================
-- Random source model
-- ============================================================================

/-- Explicit model of the `Math.random()` source: a stream of naturals, consumed
front to back; an exhausted stream keeps yielding 0. -/
structure RandSrc where
  vals : List Nat
deriving Repr, DecidableEq

def RandSrc.next : RandSrc → Nat × RandSrc
  | ⟨[]⟩ => (0, ⟨[]⟩)
  | ⟨v :: vs⟩ => (v, ⟨vs⟩)

/-- `randomInt(min, max)` from `plateGenerator.ts`: a random integer between
`min` and `max` inclusive. -/
def randomInt (lo hi : Nat) (r : RandSrc) : Nat × RandSrc :=
  (lo + (r.next).1 % (hi - lo + 1), (r.next).2)

/-- Swap the entries at positions `i` and `j` (the loop body of `shuffleArray`). -/
def listSwap {α : Type} (l : List α) (i j : Nat) : List α :=
  match l[i]?, l[j]? with
  | some a, some b => (l.set i b).set j a
  | _, _ => l

def shuffleGo {α : Type} : List α → Nat → RandSrc → List α × RandSrc
  | l, 0, r => (l, r)
  | l, Nat.succ i', r =>
    shuffleGo (listSwap l (i' + 1) (randomInt 0 (i' + 1) r).1) i' (randomInt 0 (i' + 1) r).2

/-- `shuffleArray` from `plateGenerator.ts`: Fisher–Yates shuffle driven by the
random stream. -/
def shuffleArray {α : Type} (l : List α) (r : RandSrc) : List α × RandSrc :=
  shuffleGo l (l.length - 1) r

-- ============================================================================
-- Data model (`types.ts`)
-- ============================================================================

/-- `BankoGrid`: 3 rows × 9 columns of optional numbers. -/
abbrev BankoGrid : Type := List (List (Option Nat))

/-- `BankoPlate` from `types.ts`. -/
structure BankoPlate where
  id : String
  grid : BankoGrid
  numbers : List Nat
  isWinning : Bool := false
deriving Repr, DecidableEq

/-- `ValidationResult` from `types.ts`. -/
structure ValidationResult where
  isValid : Bool
  errors : List String
deriving Repr, DecidableEq

/-- `GenerationConfig` from `types.ts` (the two numeric fields the core reads). -/
structure GenerationConfig where
  totalPlates : Int
  winningPlatesCount : Int
deriving Repr, DecidableEq

/-- `COLUMN_RANGES` from `types.ts`. -/
def COLUMN_RANGES : List (Nat × Nat) :=
  [(1, 9), (10, 19), (20, 29), (30, 39), (40, 49), (50, 59), (60, 69), (70, 79), (80, 90)]

/-- The structured error type standing for the `Error` values thrown by the source. -/
inductive GenError where
  /-- "Cannot generate `count` unique numbers in range `min`-`max`" -/
  | cannotGenerateUnique (count lo hi : Nat)
  /-- "Failed to generate valid plate after `maxAttempts` attempts" -/
  | generationExhausted (attempts : Nat)
  /-- "Count must be positive" -/
  | countMustBePositive
  /-- "Could only generate `produced` unique plates out of `requested` requested" -/
  | partialBatch (produced requested : Nat)
  /-- "Winning plates count cannot exceed total plates" -/
  | winningExceedsTotal
  /-- "Must have at least one winning plate for prank mode" -/
  | needWinningPlate
  /-- "Must generate at least one plate" -/
  | needOnePlate
deriving Repr, DecidableEq

-- ============================================================================
-- Validator (`validator.ts`)
-- ============================================================================

namespace Validator

/-- `validateGridDimensions` (FN-110). -/
def validateGridDimensions (p : BankoPlate) : List String :=
  if p.grid.length ≠ 3 then
    ["Grid must have exactly 3 rows, got " ++ Nat.repr p.grid.length]
  else
    (List.range p.grid.length).foldl
      (fun errs i =>
        match p.grid[i]? with
        | some row =>
          if row.length ≠ 9 then
            errs ++ ["Row " ++ Nat.repr (i + 1) ++ " must have exactly 9 columns, got " ++
              Nat.repr row.length]
          else errs
        | none => errs)
      []

/-- `validateNumbersPerRow` (FN-111). -/
def validateNumbersPerRow (p : BankoPlate) : List String :=
  (List.range p.grid.length).foldl
    (fun errs i =>
      match p.grid[i]? with
      | some row =>
        let numbersInRow := (row.filter (fun cell => cell ≠ none)).length
        if numbersInRow ≠ 5 then
          errs ++ ["Row " ++ Nat.repr (i + 1) ++ " must have exactly 5 numbers, got " ++
            Nat.repr numbersInRow]
        else errs
      | none => errs)
    []

/-- `validateTotalNumbers` (FN-112). -/
def validateTotalNumbers (p : BankoPlate) : List String :=
  let e1 : List String :=
    if p.numbers.length ≠ 15 then
      ["Plate must have exactly 15 numbers, got " ++ Nat.repr p.numbers.length]
    else []
  let gridCount := p.grid.foldl (fun acc row => acc + (row.filter (fun c => c ≠ none)).length) 0
  let e2 : List String :=
    if gridCount ≠ 15 then
      ["Grid must have exactly 15 numbers, got " ++ Nat.repr gridCount]
    else []
  e1 ++ e2

/-- `validateColumnRanges` (FN-113). -/
def validateColumnRanges (p : BankoPlate) : List String :=
  (List.range p.grid.length).foldl
    (fun errs rowIdx =>
      match p.grid[rowIdx]? with
      | some row =>
        (List.range row.length).foldl
          (fun errs2 col =>
            match row[col]? with
            | some (some cell) =>
              match COLUMN_RANGES[col]? with
              | some range =>
                if cell < range.1 ∨ cell > range.2 then
                  errs2 ++ ["Number " ++ Nat.repr cell ++ " at row " ++ Nat.repr (rowIdx + 1) ++
                    ", column " ++ Nat.repr (col + 1) ++ " is outside valid range " ++
                    Nat.repr range.1 ++ "-" ++ Nat.repr range.2]
                else errs2
              | none => errs2
            | _ => errs2)
          errs
      | none => errs)
    []

/-- `validateMaxPerColumn` (FN-114). -/
def validateMaxPerColumn (p : BankoPlate) : List String :=
  (List.range 9).foldl
    (fun errs col =>
      let count := p.grid.foldl
        (fun acc row => match row[col]? with | some (some _) => acc + 1 | _ => acc) 0
      if count > 3 then
        errs ++ ["Column " ++ Nat.repr (col + 1) ++ " has " ++ Nat.repr count ++
          " numbers, maximum is 3"]
      else errs)
    []

/-- The per-column occupied values, top to bottom (the `numbersInColumn` array). -/
def numbersInColumn (p : BankoPlate) (col : Nat) : List Nat :=
  p.grid.foldl
    (fun acc row => match row[col]? with | some (some cell) => acc ++ [cell] | _ => acc) []

/-- Whether a list has an adjacent non-increasing pair (the inner check of
`validateAscendingOrder`). -/
def hasNonAscending : List Nat → Bool
  | [] => false
  | [_] => false
  | a :: b :: rest => if b ≤ a then true else hasNonAscending (b :: rest)

/-- `validateAscendingOrder` (FN-116). -/
def validateAscendingOrder (p : BankoPlate) : List String :=
  (List.range 9).foldl
    (fun errs col =>
      let nums := numbersInColumn p col
      if hasNonAscending nums then
        errs ++ ["Column " ++ Nat.repr (col + 1) ++ " numbers are not in ascending order"]
      else errs)
    []

/-- `validateNoDuplicates`. -/
def validateNoDuplicates (p : BankoPlate) : List String :=
  (p.numbers.foldl
    (fun (st : List String × List Nat) num =>
      let (errs, seen) := st
      if seen.contains num then
        (errs ++ ["Duplicate number found on plate: " ++ Nat.repr num], seen ++ [num])
      else (errs, seen ++ [num]))
    ([], [])).1

/-- `validateGridMatchesNumbers`. -/
def validateGridMatchesNumbers (p : BankoPlate) : List String :=
  let gridNumbers := p.grid.foldl
    (fun acc row => acc ++ row.filterMap id) []
  let sortedGrid := List.insertionSort (· ≤ ·) gridNumbers
  let sortedNumbers := List.insertionSort (· ≤ ·) p.numbers
  if sortedGrid ≠ sortedNumbers then ["Grid numbers do not match numbers array"] else []

/-- `validatePlate` from `validator.ts`: runs all checks and aggregates the errors. -/
def validatePlate (p : BankoPlate) : ValidationResult :=
  let errors :=
    validateGridDimensions p ++ validateNumbersPerRow p ++ validateTotalNumbers p ++
    validateColumnRanges p ++ validateMaxPerColumn p ++ validateAscendingOrder p ++
    validateNoDuplicates p ++ validateGridMatchesNumbers p
  { isValid := errors.length = 0, errors := errors }

/-- `isValidPlate` from `validator.ts`. -/
def isValidPlate (p : BankoPlate) : Bool :=
  (validatePlate p).isValid

/-- The comma-join of a list of numbers, mirroring JavaScript's `array.join(',')`. -/
def joinComma : List Nat → String
  | [] => ""
  | [n] => Nat.repr n
  | n :: ns => Nat.repr n ++ "," ++ joinComma ns

/-- `getPlateHash` from `validator.ts`: sorts a copy of `numbers` and joins with `,`. -/
def getPlateHash (p : BankoPlate) : String :=
  joinComma (List.insertionSort (· ≤ ·) p.numbers)

end Validator

-- ============================================================================
-- Plate generator (`plateGenerator.ts`)
-- ============================================================================

namespace PlateGenerator

/-- `createEmptyGrid`: a 3×9 grid of `null`s. -/
def createEmptyGrid : BankoGrid :=
  List.replicate 3 (List.replicate 9 (none : Option Nat))

/-- Write one grid cell (`grid[row][col] = v` with the source's definedness guard). -/
def setCell (g : BankoGrid) (row col : Nat) (v : Option Nat) : BankoGrid :=
  match g[row]? with
  | some gridRow => g.set row (gridRow.set col v)
  | none => g

/-- Read one grid cell (absent rows/cells read as empty). -/
def getCell (g : BankoGrid) (row col : Nat) : Option Nat :=
  match g[row]? with
  | some gridRow =>
    match gridRow[col]? with
    | some cell => cell
    | none => none
  | none => none

/-- The push of one selected row into a column's list in `distributeColumnsToRows`
(seeding loop body), guarded by the row quota re-check. -/
def pushRow (col : Nat) (p : List (List Nat) × List Nat) (row : Nat) :
    List (List Nat) × List Nat :=
  if p.2.getD row 0 < 5 then
    match p.1[col]? with
    | some colArray => (p.1.set col (colArray ++ [row]), p.2.set row (p.2.getD row 0 + 1))
    | none => p
  else p

/-- One iteration of the seeding loop of `distributeColumnsToRows`: visit column
`col`, choose 1–3 of the rows still under quota, and record them for `col`. -/
def seedColumn (st : (List (List Nat) × List Nat) × RandSrc) (col : Nat) :
    (List (List Nat) × List Nat) × RandSrc :=
  let availableRows := [0, 1, 2].filter (fun row => st.1.2.getD row 0 < 5)
  if availableRows.isEmpty then st
  else
    let count := min (randomInt 1 3 st.2).1 availableRows.length
    let r1 := (randomInt 1 3 st.2).2
    ((((shuffleArray availableRows r1).1.take count).foldl (pushRow col) st.1),
     (shuffleArray availableRows r1).2)

/-- Whether a column can accept `row` in the repair loop: fewer than 3 entries and
`row` not already present (the `availableColumns` filter). -/
def colAccepts (cc : List (List Nat)) (col row : Nat) : Bool :=
  match cc[col]? with
  | some colData => colData.length < 3 && !(colData.contains row)
  | none => false

/-- Second stage of one repair-loop iteration: push `row` into the chosen column. -/
def repairApply2 (row col : Nat) (st : List (List Nat) × List Nat) :
    Option (List Nat) → RandSrc →
      (List (List Nat) × List Nat → RandSrc → (List (List Nat) × List Nat) × RandSrc) →
      (List (List Nat) × List Nat) × RandSrc
  | some colArray, r1, cont =>
    cont (st.1.set col (colArray ++ [row]), st.2.set row (st.2.getD row 0 + 1)) r1
  | none, r1, cont => cont st r1

/-- First stage of one repair-loop iteration: resolve the randomly chosen column. -/
def repairApply (row : Nat) (st : List (List Nat) × List Nat) :
    Option Nat → RandSrc →
      (List (List Nat) × List Nat → RandSrc → (List (List Nat) × List Nat) × RandSrc) →
      (List (List Nat) × List Nat) × RandSrc
  | some col, r1, cont => repairApply2 row col st st.1[col]? r1 cont
  | none, r1, cont => cont st r1

/-- The repair (`while`) loop of `distributeColumnsToRows` for one row, with fuel:
each productive iteration raises the row's count, so fuel 5 is enough. -/
def repairRowLoop (columnOrder : List Nat) (row : Nat) :
    Nat → List (List Nat) × List Nat → RandSrc → (List (List Nat) × List Nat) × RandSrc
  | 0, st, r => (st, r)
  | Nat.succ fuel, st, r =>
    if st.2.getD row 0 < 5 then
      if (columnOrder.filter (fun col => colAccepts st.1 col row)).isEmpty then (st, r)
      else
        repairApply row st
          (columnOrder.filter (fun col => colAccepts st.1 col row))[(randomInt 0 ((columnOrder.filter (fun col => colAccepts st.1 col row)).length - 1) r).1]?
          (randomInt 0 ((columnOrder.filter (fun col => colAccepts st.1 col row)).length - 1) r).2
          (repairRowLoop columnOrder row fuel)
    else (st, r)

/-- `distributeColumnsToRows`: returns, for each of the 9 columns, the list of row
indices where that column holds a number. -/
def distributeColumnsToRows (r : RandSrc) : List (List Nat) × RandSrc :=
  ((([0, 1, 2].foldl
    (fun (p : (List (List Nat) × List Nat) × RandSrc) row =>
      repairRowLoop (shuffleArray [0, 1, 2, 3, 4, 5, 6, 7, 8] r).1 row 5 p.1 p.2)
    ((shuffleArray [0, 1, 2, 3, 4, 5, 6, 7, 8] r).1.foldl seedColumn
      ((List.replicate 9 [], [0, 0, 0]), (shuffleArray [0, 1, 2, 3, 4, 5, 6, 7, 8] r).2))).1.1),
   ([0, 1, 2].foldl
    (fun (p : (List (List Nat) × List Nat) × RandSrc) row =>
      repairRowLoop (shuffleArray [0, 1, 2, 3, 4, 5, 6, 7, 8] r).1 row 5 p.1 p.2)
    ((shuffleArray [0, 1, 2, 3, 4, 5, 6, 7, 8] r).1.foldl seedColumn
      ((List.replicate 9 [], [0, 0, 0]), (shuffleArray [0, 1, 2, 3, 4, 5, 6, 7, 8] r).2))).2)

/-- The drawing loop of `generateUniqueNumbersInRange`: pick a random index,
remove it from the pool (`splice`), repeat. -/
def drawUnique : List Nat → Nat → RandSrc → List Nat × RandSrc
  | _, 0, r => ([], r)
  | avail, Nat.succ k, r =>
    match avail[(randomInt 0 (avail.length - 1) r).1]? with
    | some num =>
      (num :: (drawUnique (avail.eraseIdx (randomInt 0 (avail.length - 1) r).1) k
          (randomInt 0 (avail.length - 1) r).2).1,
       (drawUnique (avail.eraseIdx (randomInt 0 (avail.length - 1) r).1) k
          (randomInt 0 (avail.length - 1) r).2).2)
    | none => drawUnique avail k (randomInt 0 (avail.length - 1) r).2

/-- `generateUniqueNumbersInRange`: `count` distinct numbers drawn from `[lo, hi]`,
or the source's thrown error when the range is too small. -/
def generateUniqueNumbersInRange (lo hi count : Nat) (r : RandSrc) :
    Except GenError (List Nat) × RandSrc :=
  if count > (List.range' lo (hi + 1 - lo)).length then
    (.error (.cannotGenerateUnique count lo hi), r)
  else
    (.ok (drawUnique (List.range' lo (hi + 1 - lo)) count r).1,
     (drawUnique (List.range' lo (hi + 1 - lo)) count r).2)

/-- Place a drawn number list into a column's assigned rows, continuing the column
loop of `placeNumbersInGrid`; an error from the draw propagates. -/
def placeDraw (rows : List Nat) (col : Nat) (g : BankoGrid)
    (res : Except GenError (List Nat) × RandSrc)
    (cont : BankoGrid → RandSrc → Except GenError BankoGrid × RandSrc) :
    Except GenError BankoGrid × RandSrc :=
  match res with
  | (Except.ok numbers, r1) =>
    cont ((rows.zip numbers).foldl (fun gg rn => setCell gg rn.1 col (some rn.2)) g) r1
  | (Except.error e, r1) => (.error e, r1)

/-- One column of `placeNumbersInGrid`, split on the column's row list and range. -/
def placeColStep (col : Nat) (rowsOpt : Option (List Nat)) (rangeOpt : Option (Nat × Nat))
    (g : BankoGrid) (r : RandSrc)
    (cont : BankoGrid → RandSrc → Except GenError BankoGrid × RandSrc) :
    Except GenError BankoGrid × RandSrc :=
  match rowsOpt with
  | some rows =>
    if rows.isEmpty then cont g r
    else
      match rangeOpt with
      | some range =>
        placeDraw rows col g (generateUniqueNumbersInRange range.1 range.2 rows.length r) cont
      | none => cont g r
  | none => cont g r

/-- The per-column loop of `placeNumbersInGrid`. -/
def placeNumbersGo (columnCounts : List (List Nat)) :
    List Nat → BankoGrid → RandSrc → Except GenError BankoGrid × RandSrc
  | [], g, r => (.ok g, r)
  | col :: cols, g, r =>
    placeColStep col columnCounts[col]? COLUMN_RANGES[col]? g r
      (placeNumbersGo columnCounts cols)

/-- `placeNumbersInGrid`: fill each column's assigned rows with fresh numbers from
that column's range. -/
def placeNumbersInGrid (g : BankoGrid) (columnCounts : List (List Nat)) (r : RandSrc) :
    Except GenError BankoGrid × RandSrc :=
  placeNumbersGo columnCounts (List.range 9) g r

/-- The entries of one column with their row indices (the `entries` array of
`sortColumnsAscending`). -/
def colEntries (g : BankoGrid) (col : Nat) : List (Nat × Nat) :=
  [0, 1, 2].filterMap (fun row => (getCell g row col).map (fun v => (row, v)))

/-- One column step of `sortColumnsAscending`: sort the occupied values and
re-assign them to the original (row-sorted) positions. -/
def sortOneColumn (g : BankoGrid) (col : Nat) : BankoGrid :=
  if (colEntries g col).length ≤ 1 then g
  else
    (((List.insertionSort (· ≤ ·) ((colEntries g col).map (fun e => e.1))).zip
        ((List.insertionSort (fun a b : Nat × Nat => a.2 ≤ b.2) (colEntries g col)).map
          (fun e => e.2))).foldl
      (fun gg rv => setCell gg rv.1 col (some rv.2)) g)

/-- `sortColumnsAscending` from `plateGenerator.ts`. -/
def sortColumnsAscending (g : BankoGrid) : BankoGrid :=
  (List.range 9).foldl sortOneColumn g

/-- `extractNumbers`: all grid numbers, sorted ascending. -/
def extractNumbers (g : BankoGrid) : List Nat :=
  List.insertionSort (· ≤ ·) (g.foldl (fun acc row => acc ++ row.filterMap id) [])

/-- `generatePlateId`, with the timestamp/random suffix modelled by one draw from
the random stream. -/
def generatePlateId (r : RandSrc) : String × RandSrc :=
  ("plate_" ++ Nat.repr (r.next).1, (r.next).2)

/-- Assemble the plate from the filled grid (tail of `attemptPlateGeneration`),
propagating a placement error. -/
def finishPlate (id : String) (res : Except GenError BankoGrid × RandSrc) :
    Except GenError BankoPlate × RandSrc :=
  match res with
  | (Except.ok g1, r3) =>
    (.ok { id := id, grid := sortColumnsAscending g1,
           numbers := extractNumbers (sortColumnsAscending g1) }, r3)
  | (Except.error e, r3) => (.error e, r3)

/-- `attemptPlateGeneration`: one draft card (may be invalid; caller validates). -/
def attemptPlateGeneration (r : RandSrc) : Except GenError BankoPlate × RandSrc :=
  finishPlate (generatePlateId r).1
    (placeNumbersInGrid createEmptyGrid
      (distributeColumnsToRows (generatePlateId r).2).1
      (distributeColumnsToRows (generatePlateId r).2).2)

/-- The retry step of `generatePlate`: accept a validated draft, retry otherwise,
propagate a thrown error. -/
def plateRetryStep (res : Except GenError BankoPlate × RandSrc)
    (cont : RandSrc → Except GenError BankoPlate × RandSrc) :
    Except GenError BankoPlate × RandSrc :=
  match res with
  | (Except.ok plate, r1) =>
    if (Validator.validatePlate plate).isValid then (.ok plate, r1) else cont r1
  | (Except.error e, r1) => (.error e, r1)

/-- The retry loop of `generatePlate` (hard cap 1000 attempts). -/
def generatePlateGo : Nat → RandSrc → Except GenError BankoPlate × RandSrc
  | 0, r => (.error (.generationExhausted 1000), r)
  | Nat.succ fuel, r => plateRetryStep (attemptPlateGeneration r) (generatePlateGo fuel)

/-- `generatePlate`: retry until the validator accepts, up to 1000 attempts. -/
def generatePlate (r : RandSrc) : Except GenError BankoPlate × RandSrc :=
  generatePlateGo 1000 r

/-- `getPlateHash` from `plateGenerator.ts`: `plate.numbers.join(',')`. -/
def getPlateHash (p : BankoPlate) : String :=
  Validator.joinComma p.numbers

/-- One iteration body of the batch loop of `generatePlates`: record the plate
when its hash is fresh, count the attempt either way, propagate a thrown error. -/
def batchStep (plates : List BankoPlate) (seen : List String)
    (res : Except GenError BankoPlate × RandSrc)
    (cont : List BankoPlate → List String → RandSrc →
      Except GenError (List BankoPlate) × RandSrc) :
    Except GenError (List BankoPlate) × RandSrc :=
  match res with
  | (Except.ok plate, r1) =>
    if seen.contains (getPlateHash plate) then cont plates seen r1
    else cont (plates ++ [plate]) (seen ++ [getPlateHash plate]) r1
  | (Except.error e, r1) => (.error e, r1)

/-- The collection loop of `generatePlates`, with the attempt budget as fuel. -/
def generatePlatesGo (count : Nat) :
    Nat → List BankoPlate → List String → RandSrc → Except GenError (List BankoPlate) × RandSrc
  | 0, plates, _, r =>
    if count ≤ plates.length then (.ok plates, r)
    else (.error (.partialBatch plates.length count), r)
  | Nat.succ fuel, plates, seen, r =>
    if count ≤ plates.length then (.ok plates, r)
    else batchStep plates seen (generatePlate r) (generatePlatesGo count fuel)

/-- `generatePlates`: `count` unique valid plates, within a `count * 10` attempt
budget, or an explicit error. -/
def generatePlates (count : Nat) (r : RandSrc) : Except GenError (List BankoPlate) × RandSrc :=
  if count ≤ 0 then (.error .countMustBePositive, r)
  else generatePlatesGo count (count * 10) [] [] r

end PlateGenerator

-- ============================================================================
-- Prank calculator (`prankCalculator.ts`)
-- ============================================================================

namespace PrankCalculator

/-- Append `n` to `acc` unless already present: one `Set.add` step, keeping
JavaScript's insertion order. -/
def addUnique (acc : List Nat) (n : Nat) : List Nat :=
  if acc.contains n then acc else acc ++ [n]

/-- The union of the `numbers` of a list of plates in first-occurrence order
(the JS `Set<number>` filled by nested `for` loops). -/
def collectUnique (plates : List BankoPlate) : List Nat :=
  plates.foldl (fun acc p => p.numbers.foldl addUnique acc) []

/-- Append a plate id to a blocked-set unless already present (one `Set.add`). -/
def addUniqueId (acc : List String) (pid : String) : List String :=
  if acc.contains pid then acc else acc ++ [pid]

/-- The `numberToPlates` entry for `num`: ids of the non-winning plates whose
numbers contain `num`, in scan order, deduplicated (a JS `Set<string>`). -/
def platesWithNumber (nonWinningPlates : List BankoPlate) (num : Nat) : List String :=
  nonWinningPlates.foldl
    (fun acc p => if p.numbers.contains num then addUniqueId acc p.id else acc) []

/-- How many NEW plates excluding `num` would block, given the already blocked ids. -/
def newBlocksCount (platesWithNum blockedPlates : List String) : Nat :=
  (platesWithNum.filter (fun pid => !(blockedPlates.contains pid))).length

/-- The candidate scan of one greedy iteration of `findMinimalExclusionSet`:
`bestNum`/`bestCount` start at `-1`/`0` and a candidate replaces them only with a
strictly greater new-block count, so the first maximum of the scan order wins. -/
def pickBest (nonWinningPlates : List BankoPlate) (safeToExclude excluded : List Nat)
    (blockedPlates : List String) : Option Nat × Nat :=
  safeToExclude.foldl
    (fun (best : Option Nat × Nat) num =>
      if excluded.contains num then best
      else
        if newBlocksCount (platesWithNumber nonWinningPlates num) blockedPlates > best.2 then
          (some num, newBlocksCount (platesWithNumber nonWinningPlates num) blockedPlates)
        else best)
    (none, 0)

/-- The body of one greedy iteration, split on the scan result: append the winner
and mark its plates blocked, or exit the loop. -/
def greedyStep (nonWinningPlates : List BankoPlate) (excluded : List Nat)
    (blockedPlates : List String) (best : Option Nat × Nat)
    (cont : List Nat → List String → List Nat) : List Nat :=
  match best with
  | (some bestNum, _) =>
    cont (excluded ++ [bestNum])
      ((platesWithNumber nonWinningPlates bestNum).foldl addUniqueId blockedPlates)
  | (none, _) => excluded

/-- The greedy `while` loop of `findMinimalExclusionSet`, with fuel: every
iteration adds a fresh element of `safeToExclude`, so `|safeToExclude| + 1` fuel
is never exhausted. -/
def greedyLoop (nonWinningPlates : List BankoPlate) (safeToExclude : List Nat) :
    Nat → List Nat → List String → List Nat
  | 0, excluded, _ => excluded
  | Nat.succ fuel, excluded, blockedPlates =>
    if blockedPlates.length < nonWinningPlates.length then
      greedyStep nonWinningPlates excluded blockedPlates
        (pickBest nonWinningPlates safeToExclude excluded blockedPlates)
        (greedyLoop nonWinningPlates safeToExclude fuel)
    else excluded

/-- `findMinimalExclusionSet` from `prankCalculator.ts`. -/
def findMinimalExclusionSet (nonWinningPlates : List BankoPlate) (safeToExclude : List Nat) :
    List Nat :=
  if nonWinningPlates.isEmpty then []
  else if safeToExclude.isEmpty then []
  else greedyLoop nonWinningPlates safeToExclude (safeToExclude.length + 1) [] []

/-- The result record of `calculateExcludedNumbers`. -/
structure CalcResult where
  excludedNumbers : List Nat
  analysis : List String
deriving Repr, DecidableEq

/-- The safe-to-exclude pool of `calculateExcludedNumbers`: numbers on some
non-winning plate and on no winning plate, in first-occurrence order. -/
def safeToExcludeOf (plates : List BankoPlate) (winningPlateIds : List String) : List Nat :=
  (collectUnique (plates.filter (fun p => !(winningPlateIds.contains p.id)))).filter
    (fun n => !((collectUnique (plates.filter (fun p => winningPlateIds.contains p.id))).contains n))

/-- `calculateExcludedNumbers` from `prankCalculator.ts`. -/
def calculateExcludedNumbers (plates : List BankoPlate) (winningPlateIds : List String) :
    CalcResult :=
  { excludedNumbers :=
      List.insertionSort (· ≤ ·)
        (findMinimalExclusionSet (plates.filter (fun p => !(winningPlateIds.contains p.id)))
          (safeToExcludeOf plates winningPlateIds)),
    analysis :=
      ["Tal paa vindende plader: " ++
         Nat.repr (collectUnique (plates.filter (fun p => winningPlateIds.contains p.id))).length,
       "Tal paa ikke-vindende plader: " ++
         Nat.repr (collectUnique (plates.filter (fun p => !(winningPlateIds.contains p.id)))).length,
       "Tal der kan ekskluderes sikkert: " ++ Nat.repr (safeToExcludeOf plates winningPlateIds).length,
       "Tal der skal ekskluderes: " ++
         Nat.repr (List.insertionSort (· ≤ ·)
           (findMinimalExclusionSet (plates.filter (fun p => !(winningPlateIds.contains p.id)))
             (safeToExcludeOf plates winningPlateIds))).length] }

/-- The pair returned by `findOptimalWinningPlates`. -/
structure OptimalResult where
  winningPlateIds : List String
  excludedNumbers : List Nat
deriving Repr, DecidableEq

/-- The scoring of one trial of `findOptimalWinningPlates`. -/
def trialScore (len : Nat) : Int :=
  if len > 0 then (if len ≤ 20 then 100 - (len : Int) else 50 - (len : Int)) else -1000

/-- The trial loop of `findOptimalWinningPlates` (up to 100 randomized winner
subsets; the comparator-random `sort` of the source is modelled by the
stream-driven shuffle). -/
def findOptimalGo (plates : List BankoPlate) (winningCount : Nat) :
    Nat → Option (List String × List Nat) → Int → RandSrc →
      Option (List String × List Nat) × RandSrc
  | 0, best, _, r => (best, r)
  | Nat.succ fuel, best, bestScore, r =>
    let candidateWinnerIds := ((shuffleArray plates r).1.take winningCount).map (fun p => p.id)
    let r1 := (shuffleArray plates r).2
    let len := (calculateExcludedNumbers plates candidateWinnerIds).excludedNumbers.length
    let score := trialScore len
    let best' :=
      if score > bestScore then
        some (candidateWinnerIds,
              (calculateExcludedNumbers plates candidateWinnerIds).excludedNumbers)
      else best
    let bestScore' := if score > bestScore then score else bestScore
    if 5 ≤ len ∧ len ≤ 15 then (best', r1)
    else findOptimalGo plates winningCount fuel best' bestScore' r1

/-- Unpack the best trial, or fall back to the first `winningCount` plates with an
empty exclusion list (end of `findOptimalWinningPlates`). -/
def optimalFrom (plates : List BankoPlate) (winningCount : Nat) :
    Option (List String × List Nat) → OptimalResult
  | some best => { winningPlateIds := best.1, excludedNumbers := best.2 }
  | none =>
    { winningPlateIds := (plates.take winningCount).map (fun p => p.id),
      excludedNumbers := [] }

/-- `findOptimalWinningPlates` from `prankCalculator.ts`. -/
def findOptimalWinningPlates (plates : List BankoPlate) (winningCount : Nat) (r : RandSrc) :
    OptimalResult × RandSrc :=
  (optimalFrom plates winningCount (findOptimalGo plates winningCount 100 none (-1) r).1,
   (findOptimalGo plates winningCount 100 none (-1) r).2)

/-- `GenerationSummary` from `types.ts`. -/
structure GenerationSummary where
  totalPlates : Int
  winningPlates : Int
  numbersToExclude : List Nat
deriving Repr, DecidableEq

/-- `GenerationResult` from `types.ts`. -/
structure GenerationResult where
  plates : List BankoPlate
  winningPlateIds : List String
  excludedNumbers : List Nat
  summary : GenerationSummary
deriving Repr, DecidableEq

/-- Tail of `generatePrankPlates` after the config checks: run the optimizer over
the generated batch and assemble the result, propagating a generation error. -/
def prankAssemble (config : GenerationConfig)
    (res : Except GenError (List BankoPlate) × RandSrc) :
    Except GenError GenerationResult × RandSrc :=
  match res with
  | (Except.ok plates, r1) =>
    (.ok { plates := plates.map (fun p =>
             { p with isWinning :=
                 ((findOptimalWinningPlates plates config.winningPlatesCount.toNat r1).1).winningPlateIds.contains p.id }),
           winningPlateIds :=
             ((findOptimalWinningPlates plates config.winningPlatesCount.toNat r1).1).winningPlateIds,
           excludedNumbers :=
             ((findOptimalWinningPlates plates config.winningPlatesCount.toNat r1).1).excludedNumbers,
           summary := { totalPlates := config.totalPlates,
                        winningPlates := config.winningPlatesCount,
                        numbersToExclude :=
                          ((findOptimalWinningPlates plates config.winningPlatesCount.toNat r1).1).excludedNumbers } },
     (findOptimalWinningPlates plates config.winningPlatesCount.toNat r1).2)
  | (Except.error e, r1) => (.error e, r1)

/-- `generatePrankPlates` from `prankCalculator.ts`. -/
def generatePrankPlates (config : GenerationConfig) (r : RandSrc) :
    Except GenError GenerationResult × RandSrc :=
  if config.winningPlatesCount > config.totalPlates then (.error .winningExceedsTotal, r)
  else if config.winningPlatesCount ≤ 0 then (.error .needWinningPlate, r)
  else if config.totalPlates ≤ 0 then (.error .needOnePlate, r)
  else prankAssemble config (PlateGenerator.generatePlates config.totalPlates.toNat r)

end PrankCalculator


-- ============================================================================
-- Helper lemmas: validator acceptance of generated plates (C3)
-- ============================================================================

lemma validatePlate_isValid_iff (p : BankoPlate) :
    (Validator.validatePlate p).isValid = true ↔ (Validator.validatePlate p).errors = [] := by
  simp [Validator.validatePlate, List.length_eq_zero]

lemma generatePlateGo_zero (r : RandSrc) :
    PlateGenerator.generatePlateGo 0 r = (.error (.generationExhausted 1000), r) := rfl

lemma generatePlateGo_succ (fuel : Nat) (r : RandSrc) :
    PlateGenerator.generatePlateGo (fuel + 1) r =
      PlateGenerator.plateRetryStep (PlateGenerator.attemptPlateGeneration r)
        (PlateGenerator.generatePlateGo fuel) := rfl

lemma generatePlateGo_ok (fuel : Nat) :
    ∀ (r r' : RandSrc) (p : BankoPlate),
      PlateGenerator.generatePlateGo fuel r = (Except.ok p, r') →
      (Validator.validatePlate p).isValid = true := by
  induction fuel with
  | zero =>
    intro r r' p h
    rw [generatePlateGo_zero, Prod.mk.injEq] at h
    exact absurd h.1 (by simp)
  | succ n ih =>
    intro r r' p h
    rw [generatePlateGo_succ] at h
    rcases hat : PlateGenerator.attemptPlateGeneration r with ⟨res, r1⟩
    rw [hat] at h
    cases res with
    | ok plate =>
      simp only [PlateGenerator.plateRetryStep] at h
      split at h
      · rw [Prod.mk.injEq] at h
        obtain ⟨h1, h2⟩ := h
        cases h1
        assumption
      · exact ih _ _ _ h
    | error e =>
      simp only [PlateGenerator.plateRetryStep] at h
      rw [Prod.mk.injEq] at h
      exact absurd h.1 (by simp)

lemma generatePlatesGo_zero (count : Nat) (plates : List BankoPlate) (seen : List String)
    (r : RandSrc) :
    PlateGenerator.generatePlatesGo count 0 plates seen r =
      if count ≤ plates.length then (.ok plates, r)
      else (.error (.partialBatch plates.length count), r) := rfl

lemma generatePlatesGo_succ (count fuel : Nat) (plates : List BankoPlate) (seen : List String)
    (r : RandSrc) :
    PlateGenerator.generatePlatesGo count (fuel + 1) plates seen r =
      if count ≤ plates.length then (.ok plates, r)
      else PlateGenerator.batchStep plates seen (PlateGenerator.generatePlate r)
        (PlateGenerator.generatePlatesGo count fuel) := rfl

lemma generatePlatesGo_ok_mem (count : Nat) :
    ∀ (fuel : Nat) (plates : List BankoPlate) (seen : List String) (r r' : RandSrc)
      (l : List BankoPlate),
      (∀ p ∈ plates, (Validator.validatePlate p).isValid = true) →
      PlateGenerator.generatePlatesGo count fuel plates seen r = (Except.ok l, r') →
      ∀ p ∈ l, (Validator.validatePlate p).isValid = true := by
  intro fuel
  induction fuel with
  | zero =>
    intro plates seen r r' l hinv h
    rw [generatePlatesGo_zero] at h
    split at h
    · rw [Prod.mk.injEq] at h
      obtain ⟨h1, h2⟩ := h
      cases h1
      exact hinv
    · rw [Prod.mk.injEq] at h
      exact absurd h.1 (by simp)
  | succ n ih =>
    intro plates seen r r' l hinv h
    rw [generatePlatesGo_succ] at h
    split at h
    · rw [Prod.mk.injEq] at h
      obtain ⟨h1, h2⟩ := h
      cases h1
      exact hinv
    · rcases hat : PlateGenerator.generatePlate r with ⟨res, r1⟩
      rw [hat] at h
      cases res with
      | ok plate =>
        simp only [PlateGenerator.batchStep] at h
        split at h
        · exact ih _ _ _ _ _ hinv h
        · refine ih _ _ _ _ _ ?_ h
          intro p hp
          rcases List.mem_append.mp hp with hp | hp
          · exact hinv p hp
          · rcases List.mem_singleton.mp hp with rfl
            exact generatePlateGo_ok 1000 _ _ _ hat
      | error e =>
        simp only [PlateGenerator.batchStep] at h
        rw [Prod.mk.injEq] at h
        exact absurd h.1 (by simp)

/-- C3: every card returned by `generatePlate` (and hence every card in a batch
from `generatePlates`) validates with `isValid = true` and an empty `errors` list,
and re-validating an already-accepted card again yields `isValid = true` with zero
violations. -/
theorem generatePlate_output_validates :
    (∀ (r r' : RandSrc) (p : BankoPlate),
        PlateGenerator.generatePlate r = (Except.ok p, r') →
        (Validator.validatePlate p).isValid = true ∧ (Validator.validatePlate p).errors = [])
    ∧ (∀ (count : Nat) (r r' : RandSrc) (l : List BankoPlate),
        PlateGenerator.generatePlates count r = (Except.ok l, r') →
        ∀ p ∈ l,
          (Validator.validatePlate p).isValid = true ∧ (Validator.validatePlate p).errors = [])
    ∧ (∀ p : BankoPlate, (Validator.validatePlate p).isValid = true →
        (Validator.validatePlate p).isValid = true ∧ (Validator.validatePlate p).errors = []) := by
  refine ⟨?_, ?_, ?_⟩
  · intro r r' p h
    have hv := generatePlateGo_ok 1000 r r' p h
    exact ⟨hv, (validatePlate_isValid_iff p).mp hv⟩
  · intro count r r' l h p hp
    unfold PlateGenerator.generatePlates at h
    split at h
    · rw [Prod.mk.injEq] at h
      exact absurd h.1 (by simp)
    · have hv := generatePlatesGo_ok_mem count (count * 10) [] [] r r' l (by simp) h p hp
      exact ⟨hv, (validatePlate_isValid_iff p).mp hv⟩
  · intro p h
    exact ⟨h, (validatePlate_isValid_iff p).mp h⟩

/-- The plate produced by `generatePlate` on the all-zeros random stream. -/
def plateW : BankoPlate :=
  match (PlateGenerator.generatePlate ⟨[]⟩).1 with
  | Except.ok p => p
  | Except.error _ => { id := "", grid := [], numbers := [] }

theorem generatePlate_output_validates_witness :
    (Validator.validatePlate plateW).isValid = true ∧
      (Validator.validatePlate plateW).errors = [] :=
  generatePlate_output_validates.1 ⟨[]⟩ (PlateGenerator.generatePlate ⟨[]⟩).2 plateW (by rfl)

-- ============================================================================
-- Helper lemmas: batch size, hash uniqueness and explicit failure (C4)
-- ============================================================================

lemma generatePlatesGo_ok_spec (count : Nat) :
    ∀ (fuel : Nat) (plates : List BankoPlate) (seen : List String) (r r' : RandSrc)
      (l : List BankoPlate),
      (∀ p ∈ plates, PlateGenerator.getPlateHash p ∈ seen) →
      (plates.map PlateGenerator.getPlateHash).Nodup →
      plates.length ≤ count →
      PlateGenerator.generatePlatesGo count fuel plates seen r = (Except.ok l, r') →
      l.length = count ∧ (l.map PlateGenerator.getPlateHash).Nodup := by
  intro fuel
  induction fuel with
  | zero =>
    intro plates seen r r' l hsub hnd hlen h
    rw [generatePlatesGo_zero] at h
    split at h
    · rw [Prod.mk.injEq] at h
      obtain ⟨h1, h2⟩ := h
      cases h1
      exact ⟨Nat.le_antisymm hlen (by assumption), hnd⟩
    · rw [Prod.mk.injEq] at h
      exact absurd h.1 (by simp)
  | succ n ih =>
    intro plates seen r r' l hsub hnd hlen h
    rw [generatePlatesGo_succ] at h
    split at h
    · rw [Prod.mk.injEq] at h
      obtain ⟨h1, h2⟩ := h
      cases h1
      exact ⟨Nat.le_antisymm hlen (by assumption), hnd⟩
    · rename_i hgt
      rcases hat : PlateGenerator.generatePlate r with ⟨res, r1⟩
      rw [hat] at h
      cases res with
      | ok plate =>
        simp only [PlateGenerator.batchStep] at h
        split at h
        · exact ih _ _ _ _ _ hsub hnd hlen h
        · rename_i hfresh
          refine ih _ _ _ _ _ ?_ ?_ ?_ h
          · intro p hp
            rcases List.mem_append.mp hp with hp | hp
            · exact List.mem_append_left _ (hsub p hp)
            · rcases List.mem_singleton.mp hp with rfl
              exact List.mem_append_right _ (List.mem_singleton_self _)
          · rw [List.map_append]
            simp only [List.map_cons, List.map_nil]
            rw [List.nodup_append]
            refine ⟨hnd, List.nodup_singleton _, ?_⟩
            intro a ha hb
            rcases List.mem_map.mp ha with ⟨q, hq, hqa⟩
            rcases List.mem_singleton.mp hb with rfl
            refine hfresh ?_
            have hmem : PlateGenerator.getPlateHash plate ∈ seen := hqa ▸ hsub q hq
            simpa [List.contains] using List.elem_iff.mpr hmem
          · have : plates.length < count := Nat.lt_of_not_le hgt
            simp only [List.length_append, List.length_cons, List.length_nil]
            omega
      | error e =>
        simp only [PlateGenerator.batchStep] at h
        rw [Prod.mk.injEq] at h
        exact absurd h.1 (by simp)

lemma generateUniqueNumbersInRange_error_shape (lo hi count : Nat) (r r' : RandSrc)
    (e : GenError) :
    (PlateGenerator.generateUniqueNumbersInRange lo hi count r) = (.error e, r') →
    e = .cannotGenerateUnique count lo hi := by
  intro h
  unfold PlateGenerator.generateUniqueNumbersInRange at h
  split at h
  · rw [Prod.mk.injEq] at h
    have := h.1
    simp at this
    exact this.symm
  · rw [Prod.mk.injEq] at h
    exact absurd h.1 (by simp)

lemma placeNumbersGo_error_shape (cc : List (List Nat)) :
    ∀ (cols : List Nat) (g : BankoGrid) (r r' : RandSrc) (e : GenError),
      PlateGenerator.placeNumbersGo cc cols g r = (.error e, r') →
      ∃ c lo hi, e = .cannotGenerateUnique c lo hi := by
  intro cols
  induction cols with
  | nil =>
    intro g r r' e h
    simp only [PlateGenerator.placeNumbersGo] at h
    rw [Prod.mk.injEq] at h
    exact absurd h.1 (by simp)
  | cons col cols ih =>
    intro g r r' e h
    simp only [PlateGenerator.placeNumbersGo] at h
    rcases hcc : cc[col]? with _ | rows
    · rw [hcc] at h
      simp only [PlateGenerator.placeColStep] at h
      exact ih _ _ _ _ h
    · rw [hcc] at h
      simp only [PlateGenerator.placeColStep] at h
      split at h
      · exact ih _ _ _ _ h
      · rcases hcr : COLUMN_RANGES[col]? with _ | range
        · rw [hcr] at h
          exact ih _ _ _ _ h
        · rw [hcr] at h
          dsimp only at h
          rcases hgen : PlateGenerator.generateUniqueNumbersInRange range.1 range.2 rows.length r
            with ⟨res, r1⟩
          rw [hgen] at h
          cases res with
          | ok numbers =>
            simp only [PlateGenerator.placeDraw] at h
            exact ih _ _ _ _ h
          | error e1 =>
            simp only [PlateGenerator.placeDraw] at h
            rw [Prod.mk.injEq] at h
            obtain ⟨h1, h2⟩ := h
            have he1 : e1 = e := by simpa using h1
            subst he1
            exact ⟨_, _, _, generateUniqueNumbersInRange_error_shape _ _ _ _ _ _ hgen⟩

lemma attemptPlateGeneration_error_shape (r r' : RandSrc) (e : GenError) :
    PlateGenerator.attemptPlateGeneration r = (.error e, r') →
    ∃ c lo hi, e = .cannotGenerateUnique c lo hi := by
  intro h
  unfold PlateGenerator.attemptPlateGeneration at h
  rcases hpl : PlateGenerator.placeNumbersInGrid PlateGenerator.createEmptyGrid
      (PlateGenerator.distributeColumnsToRows (PlateGenerator.generatePlateId r).2).1
      (PlateGenerator.distributeColumnsToRows (PlateGenerator.generatePlateId r).2).2
    with ⟨res, r1⟩
  rw [hpl] at h
  cases res with
  | ok g1 =>
    simp only [PlateGenerator.finishPlate] at h
    rw [Prod.mk.injEq] at h
    exact absurd h.1 (by simp)
  | error e1 =>
    simp only [PlateGenerator.finishPlate] at h
    rw [Prod.mk.injEq] at h
    obtain ⟨h1, h2⟩ := h
    have he1 : e1 = e := by simpa using h1
    subst he1
    exact placeNumbersGo_error_shape _ _ _ _ _ _ hpl

lemma generatePlateGo_error_shape (fuel : Nat) :
    ∀ (r r' : RandSrc) (e : GenError),
      PlateGenerator.generatePlateGo fuel r = (.error e, r') →
      e = .generationExhausted 1000 ∨ ∃ c lo hi, e = .cannotGenerateUnique c lo hi := by
  induction fuel with
  | zero =>
    intro r r' e h
    rw [generatePlateGo_zero, Prod.mk.injEq] at h
    left
    have := h.1
    simpa using this.symm
  | succ n ih =>
    intro r r' e h
    rw [generatePlateGo_succ] at h
    rcases hat : PlateGenerator.attemptPlateGeneration r with ⟨res, r1⟩
    rw [hat] at h
    cases res with
    | ok plate =>
      simp only [PlateGenerator.plateRetryStep] at h
      split at h
      · rw [Prod.mk.injEq] at h
        exact absurd h.1 (by simp)
      · exact ih _ _ _ h
    | error e1 =>
      simp only [PlateGenerator.plateRetryStep] at h
      rw [Prod.mk.injEq] at h
      obtain ⟨h1, h2⟩ := h
      have he1 : e1 = e := by simpa using h1
      subst he1
      exact Or.inr (attemptPlateGeneration_error_shape _ _ _ hat)

lemma generatePlatesGo_partial_spec (count : Nat) :
    ∀ (fuel : Nat) (plates : List BankoPlate) (seen : List String) (r r' : RandSrc)
      (m nn : Nat),
      plates.length ≤ count →
      PlateGenerator.generatePlatesGo count fuel plates seen r =
        (Except.error (.partialBatch m nn), r') →
      m < count ∧ nn = count := by
  intro fuel
  induction fuel with
  | zero =>
    intro plates seen r r' m nn hlen h
    rw [generatePlatesGo_zero] at h
    split at h
    · rw [Prod.mk.injEq] at h
      exact absurd h.1 (by simp)
    · rename_i hgt
      rw [Prod.mk.injEq] at h
      obtain ⟨h1, h2⟩ := h
      have : GenError.partialBatch plates.length count = GenError.partialBatch m nn := by
        simpa using h1
      rw [GenError.partialBatch.injEq] at this
      obtain ⟨hm, hn⟩ := this
      subst hm; subst hn
      exact ⟨Nat.lt_of_not_le hgt, rfl⟩
  | succ n ih =>
    intro plates seen r r' m nn hlen h
    rw [generatePlatesGo_succ] at h
    split at h
    · rw [Prod.mk.injEq] at h
      exact absurd h.1 (by simp)
    · rename_i hgt
      rcases hat : PlateGenerator.generatePlate r with ⟨res, r1⟩
      rw [hat] at h
      cases res with
      | ok plate =>
        simp only [PlateGenerator.batchStep] at h
        split at h
        · exact ih _ _ _ _ _ _ hlen h
        · refine ih _ _ _ _ _ _ ?_ h
          have : plates.length < count := Nat.lt_of_not_le hgt
          simp only [List.length_append, List.length_cons, List.length_nil]
          omega
      | error e =>
        simp only [PlateGenerator.batchStep] at h
        rw [Prod.mk.injEq] at h
        obtain ⟨h1, h2⟩ := h
        have he : e = GenError.partialBatch m nn := by simpa using h1
        subst he
        rcases generatePlateGo_error_shape 1000 _ _ _ hat with hx | ⟨c, lo, hi, hx⟩ <;>
          simp at hx

/-- C4: for `N ≥ 1`, `generatePlates N` either returns exactly `N` plates with
pairwise distinct uniqueness hashes, or fails explicitly; any partial-batch error
reports the partial count of unique plates (< N) together with the request `N`,
so the call never silently returns fewer than `N` cards. -/
theorem generatePlates_batch_spec (count : Nat) (r : RandSrc) (hpos : 1 ≤ count) :
    (∀ (l : List BankoPlate) (r' : RandSrc),
        PlateGenerator.generatePlates count r = (Except.ok l, r') →
        l.length = count ∧ (l.map PlateGenerator.getPlateHash).Nodup)
    ∧ (∀ (m nn : Nat) (r' : RandSrc),
        PlateGenerator.generatePlates count r = (Except.error (.partialBatch m nn), r') →
        m < count ∧ nn = count) := by
  constructor
  · intro l r' h
    unfold PlateGenerator.generatePlates at h
    split at h
    · rw [Prod.mk.injEq] at h
      exact absurd h.1 (by simp)
    · exact generatePlatesGo_ok_spec count (count * 10) [] [] r r' l (by simp) (by simp)
        (by simp) h
  · intro m nn r' h
    unfold PlateGenerator.generatePlates at h
    split at h
    · rename_i hz
      rw [Prod.mk.injEq] at h
      have : GenError.countMustBePositive = GenError.partialBatch m nn := by simpa using h.1
      simp at this
    · exact generatePlatesGo_partial_spec count (count * 10) [] [] r r' m nn (by simp) h

/-- The batch produced by `generatePlates 1` on the all-zeros random stream. -/
def batchW : List BankoPlate :=
  match (PlateGenerator.generatePlates 1 ⟨[]⟩).1 with
  | Except.ok l => l
  | Except.error _ => []

theorem generatePlates_batch_spec_witness :
    batchW.length = 1 ∧ (batchW.map PlateGenerator.getPlateHash).Nodup :=
  (generatePlates_batch_spec 1 ⟨[]⟩ (by decide)).1 batchW
    (PlateGenerator.generatePlates 1 ⟨[]⟩).2 (by rfl)

-- ============================================================================
-- C1: the winner-subset search keeps infeasible trials with non-empty exclusions
-- ============================================================================

/-- A 4-plate batch: `pu1` ("u") has all its numbers on the two winning plates
`pw1`/`pw2`, so it is unblockable under that winner subset, while `pb1` ("b") is
blockable. -/
def pb1 : BankoPlate :=
  { id := "b", grid := [], numbers := [31, 32, 33, 34, 35, 36, 37, 38, 39, 40, 41, 42, 43, 44, 45] }

def pw1 : BankoPlate :=
  { id := "w1", grid := [], numbers := [1, 2, 3, 4, 5, 6, 7, 8, 9, 10, 11, 12, 13, 14, 15] }

def pw2 : BankoPlate :=
  { id := "w2", grid := [], numbers := [16, 17, 18, 19, 20, 21, 22, 23, 24, 25, 26, 27, 28, 29, 30] }

def pu1 : BankoPlate :=
  { id := "u", grid := [], numbers := [1, 2, 3, 4, 5, 6, 7, 8, 9, 10, 11, 12, 13, 14, 16] }

def platesInfeasible : List BankoPlate := [pb1, pw1, pw2, pu1]

/-- C1 (failing run): on this batch the winner-subset search returns winners
`w1`, `w2` with the NON-EMPTY exclusion list `[31]`, yet the non-winning plate
`u` has none of its numbers excluded — an infeasible result that is kept with a
positive score instead of being signalled by an empty exclusion list. -/
theorem findOptimalWinningPlates_keeps_infeasible_nonempty_exclusions :
    (PrankCalculator.findOptimalWinningPlates platesInfeasible 2 ⟨[]⟩).1 =
        { winningPlateIds := ["w1", "w2"], excludedNumbers := [31] } ∧
      pu1 ∈ platesInfeasible ∧
      (["w1", "w2"] : List String).contains pu1.id = false ∧
      (∀ n ∈ pu1.numbers, ¬n ∈ ([31] : List Nat)) ∧
      ((PrankCalculator.findOptimalWinningPlates platesInfeasible 2 ⟨[]⟩).1).excludedNumbers ≠ [] := by
  refine ⟨by decide, by decide, by decide, by decide, by decide⟩

-- ============================================================================
-- C2: which configurations are rejected synchronously
-- ============================================================================

/-- Whether an error is one of the three configuration-validation errors thrown
at the top of `generatePrankPlates`. -/
def GenError.isConfigViolation : GenError → Bool
  | .winningExceedsTotal => true
  | .needWinningPlate => true
  | .needOnePlate => true
  | _ => false

/-- Whether a result is a configuration-validation error. -/
def errIsConfig {α : Type} : Except GenError α → Bool
  | .error e => e.isConfigViolation
  | .ok _ => false

lemma generatePlatesGo_error_notConfig (count : Nat) :
    ∀ (fuel : Nat) (plates : List BankoPlate) (seen : List String) (r r' : RandSrc)
      (e : GenError),
      PlateGenerator.generatePlatesGo count fuel plates seen r = (Except.error e, r') →
      e.isConfigViolation = false := by
  intro fuel
  induction fuel with
  | zero =>
    intro plates seen r r' e h
    rw [generatePlatesGo_zero] at h
    split at h
    · rw [Prod.mk.injEq] at h
      exact absurd h.1 (by simp)
    · rw [Prod.mk.injEq] at h
      have he : GenError.partialBatch plates.length count = e := by simpa using h.1
      rw [← he]
      rfl
  | succ n ih =>
    intro plates seen r r' e h
    rw [generatePlatesGo_succ] at h
    split at h
    · rw [Prod.mk.injEq] at h
      exact absurd h.1 (by simp)
    · rcases hat : PlateGenerator.generatePlate r with ⟨res, r1⟩
      rw [hat] at h
      cases res with
      | ok plate =>
        simp only [PlateGenerator.batchStep] at h
        split at h
        · exact ih _ _ _ _ _ h
        · exact ih _ _ _ _ _ h
      | error e1 =>
        simp only [PlateGenerator.batchStep] at h
        rw [Prod.mk.injEq] at h
        have he : e1 = e := by simpa using h.1
        subst he
        rcases generatePlateGo_error_shape 1000 _ _ _ hat with hx | ⟨c, lo, hi, hx⟩ <;>
          (subst hx; rfl)

lemma generatePlates_error_notConfig (count : Nat) (r r' : RandSrc) (e : GenError) :
    PlateGenerator.generatePlates count r = (Except.error e, r') →
    e.isConfigViolation = false := by
  intro h
  unfold PlateGenerator.generatePlates at h
  split at h
  · rw [Prod.mk.injEq] at h
    have he : GenError.countMustBePositive = e := by simpa using h.1
    rw [← he]
    rfl
  · exact generatePlatesGo_error_notConfig count (count * 10) [] [] r r' e h

/-- C2 (amended): `generatePrankPlates` returns one of the three configuration
errors exactly when `winningPlatesCount > totalPlates`, `winningPlatesCount ≤ 0`
or `totalPlates ≤ 0` (note: strictly greater, so `winningPlatesCount =
totalPlates` is accepted), and in exactly those cases the random source is
untouched, i.e. the rejection happens before any card generation. -/
theorem generatePrankPlates_config_characterization (cfg : GenerationConfig) (r : RandSrc) :
    (errIsConfig (PrankCalculator.generatePrankPlates cfg r).1 =
      decide (cfg.winningPlatesCount > cfg.totalPlates ∨ cfg.winningPlatesCount ≤ 0 ∨
        cfg.totalPlates ≤ 0))
    ∧ ((cfg.winningPlatesCount > cfg.totalPlates ∨ cfg.winningPlatesCount ≤ 0 ∨
        cfg.totalPlates ≤ 0) →
        (PrankCalculator.generatePrankPlates cfg r).2 = r) := by
  unfold PrankCalculator.generatePrankPlates
  by_cases h1 : cfg.winningPlatesCount > cfg.totalPlates
  · rw [if_pos h1]
    exact ⟨by simp [errIsConfig, GenError.isConfigViolation, h1], fun _ => rfl⟩
  · rw [if_neg h1]
    by_cases h2 : cfg.winningPlatesCount ≤ 0
    · rw [if_pos h2]
      exact ⟨by simp [errIsConfig, GenError.isConfigViolation, h2], fun _ => rfl⟩
    · rw [if_neg h2]
      by_cases h3 : cfg.totalPlates ≤ 0
      · rw [if_pos h3]
        exact ⟨by simp [errIsConfig, GenError.isConfigViolation, h3], fun _ => rfl⟩
      · rw [if_neg h3]
        constructor
        · have hdec : decide (cfg.winningPlatesCount > cfg.totalPlates ∨
              cfg.winningPlatesCount ≤ 0 ∨ cfg.totalPlates ≤ 0) = false := by
            simp [h1, h2, h3]
          rw [hdec]
          rcases hgen : PlateGenerator.generatePlates cfg.totalPlates.toNat r with ⟨res, r1⟩
          cases res with
          | ok plates => simp [PrankCalculator.prankAssemble, hgen, errIsConfig]
          | error e =>
            simp only [PrankCalculator.prankAssemble, hgen, errIsConfig]
            exact generatePlates_error_notConfig _ _ _ _ hgen
        · intro hbad
          rcases hbad with hb | hb | hb
          · exact absurd hb h1
          · exact absurd hb h2
          · exact absurd hb h3

theorem generatePrankPlates_config_characterization_witness :
    errIsConfig (PrankCalculator.generatePrankPlates ⟨0, 1⟩ ⟨[]⟩).1 = true ∧
      (PrankCalculator.generatePrankPlates ⟨0, 1⟩ ⟨[]⟩).2 = ⟨[]⟩ :=
  ⟨((generatePrankPlates_config_characterization ⟨0, 1⟩ ⟨[]⟩).1).trans (by decide),
   (generatePrankPlates_config_characterization ⟨0, 1⟩ ⟨[]⟩).2 (by decide)⟩

/-- C2 (counterexample to the claim as stated): with `totalPlates = 1` and
`winningPlatesCount = 1` we have `winningPlatesCount ≥ totalPlates`, yet the call
is accepted and returns a result instead of raising. -/
theorem generatePrankPlates_accepts_winning_eq_total :
    ((PrankCalculator.generatePrankPlates ⟨1, 1⟩ ⟨[]⟩).1).isOk = true := by
  decide

-- ============================================================================
-- Helper lemmas: membership in the JS-set folds and the greedy scan
-- ============================================================================

lemma contains_iff_mem {α : Type} [BEq α] [LawfulBEq α] (l : List α) (a : α) :
    l.contains a = true ↔ a ∈ l := by
  simp [List.contains, List.elem_iff]

lemma addUnique_mem (acc : List Nat) (n x : Nat) :
    x ∈ PrankCalculator.addUnique acc n ↔ x ∈ acc ∨ x = n := by
  unfold PrankCalculator.addUnique
  split
  · rename_i hc
    constructor
    · exact Or.inl
    · rintro (hx | rfl)
      · exact hx
      · exact (contains_iff_mem acc x).mp hc
  · simp

lemma foldl_addUnique_mem (ns : List Nat) :
    ∀ (acc : List Nat) (x : Nat),
      x ∈ ns.foldl PrankCalculator.addUnique acc ↔ x ∈ acc ∨ x ∈ ns := by
  induction ns with
  | nil => simp
  | cons n ns ih =>
    intro acc x
    simp only [List.foldl_cons]
    rw [ih, addUnique_mem]
    simp only [List.mem_cons]
    tauto

lemma collectUnique_mem (plates : List BankoPlate) (x : Nat) :
    x ∈ PrankCalculator.collectUnique plates ↔ ∃ p ∈ plates, x ∈ p.numbers := by
  suffices h : ∀ acc, x ∈ plates.foldl (fun acc p => p.numbers.foldl PrankCalculator.addUnique acc) acc ↔
      x ∈ acc ∨ ∃ p ∈ plates, x ∈ p.numbers by
    have := h []
    simpa [PrankCalculator.collectUnique] using this
  induction plates with
  | nil => simp
  | cons p ps ih =>
    intro acc
    simp only [List.foldl_cons]
    rw [ih, foldl_addUnique_mem]
    simp only [List.mem_cons]
    constructor
    · rintro ((h | h) | ⟨q, hq, hx⟩)
      · exact Or.inl h
      · exact Or.inr ⟨p, Or.inl rfl, h⟩
      · exact Or.inr ⟨q, Or.inr hq, hx⟩
    · rintro (h | ⟨q, hq | hq, hx⟩)
      · exact Or.inl (Or.inl h)
      · exact Or.inl (Or.inr (hq ▸ hx))
      · exact Or.inr ⟨q, hq, hx⟩

/-- The marginal coverage of a candidate number in the greedy scan. -/
def nbOf (nw : List BankoPlate) (blocked : List String) (num : Nat) : Nat :=
  PrankCalculator.newBlocksCount (PrankCalculator.platesWithNumber nw num) blocked

lemma pickBest_go (nw : List BankoPlate) (excluded : List Nat) (blocked : List String) :
    ∀ (l : List Nat) (st : Option Nat × Nat),
      (l.foldl
          (fun (best : Option Nat × Nat) num =>
            if excluded.contains num then best
            else
              if PrankCalculator.newBlocksCount (PrankCalculator.platesWithNumber nw num) blocked >
                  best.2 then
                (some num,
                 PrankCalculator.newBlocksCount (PrankCalculator.platesWithNumber nw num) blocked)
              else best)
          st = st ∧
        ∀ a ∈ l, excluded.contains a = false → nbOf nw blocked a ≤ st.2)
      ∨ (∃ l1 b l2, l = l1 ++ b :: l2 ∧ excluded.contains b = false ∧
          l.foldl
            (fun (best : Option Nat × Nat) num =>
              if excluded.contains num then best
              else
                if PrankCalculator.newBlocksCount (PrankCalculator.platesWithNumber nw num) blocked >
                    best.2 then
                  (some num,
                   PrankCalculator.newBlocksCount (PrankCalculator.platesWithNumber nw num) blocked)
                else best)
            st = (some b, nbOf nw blocked b) ∧
          st.2 < nbOf nw blocked b ∧
          (∀ a ∈ l1, excluded.contains a = false → nbOf nw blocked a < nbOf nw blocked b) ∧
          (∀ a ∈ l2, excluded.contains a = false → nbOf nw blocked a ≤ nbOf nw blocked b)) := by
  intro l
  induction l with
  | nil => intro st; exact Or.inl ⟨rfl, by simp⟩
  | cons x xs ih =>
    intro st
    simp only [List.foldl_cons]
    by_cases hx : excluded.contains x
    · rw [if_pos hx]
      rcases ih st with ⟨heq, hb⟩ | ⟨l1, b, l2, hdec, hbc, heq, hlt, hl1, hl2⟩
      · refine Or.inl ⟨heq, ?_⟩
        intro a ha hac
        rcases List.mem_cons.mp ha with rfl | ha
        · rw [hx] at hac; cases hac
        · exact hb a ha hac
      · refine Or.inr ⟨x :: l1, b, l2, by rw [hdec, List.cons_append], hbc, heq, hlt, ?_, hl2⟩
        intro a ha hac
        rcases List.mem_cons.mp ha with rfl | ha
        · rw [hx] at hac; cases hac
        · exact hl1 a ha hac
    · rw [if_neg hx]
      rw [Bool.not_eq_true] at hx
      by_cases hgt : PrankCalculator.newBlocksCount (PrankCalculator.platesWithNumber nw x) blocked > st.2
      · rw [if_pos hgt]
        rcases ih (some x, PrankCalculator.newBlocksCount (PrankCalculator.platesWithNumber nw x) blocked)
          with ⟨heq, hb⟩ | ⟨l1, b, l2, hdec, hbc, heq, hlt, hl1, hl2⟩
        · exact Or.inr ⟨[], x, xs, rfl, hx, heq, hgt, by simp, hb⟩
        · refine Or.inr ⟨x :: l1, b, l2, by rw [hdec, List.cons_append], hbc, heq, ?_, ?_, hl2⟩
          · exact lt_trans hgt hlt
          · intro a ha hac
            rcases List.mem_cons.mp ha with rfl | ha
            · exact hlt
            · exact hl1 a ha hac
      · rw [if_neg hgt]
        push_neg at hgt
        rcases ih st with ⟨heq, hb⟩ | ⟨l1, b, l2, hdec, hbc, heq, hlt, hl1, hl2⟩
        · refine Or.inl ⟨heq, ?_⟩
          intro a ha hac
          rcases List.mem_cons.mp ha with rfl | ha
          · exact hgt
          · exact hb a ha hac
        · refine Or.inr ⟨x :: l1, b, l2, by rw [hdec, List.cons_append], hbc, heq, hlt, ?_, hl2⟩
          intro a ha hac
          rcases List.mem_cons.mp ha with rfl | ha
          · exact lt_of_le_of_lt hgt hlt
          · exact hl1 a ha hac

lemma pickBest_some_spec (nw : List BankoPlate) (safe excluded : List Nat)
    (blocked : List String) (b : Nat) (c : Nat) :
    PrankCalculator.pickBest nw safe excluded blocked = (some b, c) →
    b ∈ safe ∧ excluded.contains b = false ∧ c = nbOf nw blocked b ∧ 0 < c ∧
      (∀ a ∈ safe, excluded.contains a = false → nbOf nw blocked a ≤ c) ∧
      ∃ l1 l2, safe = l1 ++ b :: l2 ∧
        (∀ a ∈ l1, excluded.contains a = false → nbOf nw blocked a < c) := by
  intro h
  unfold PrankCalculator.pickBest at h
  rcases pickBest_go nw excluded blocked safe (none, 0)
    with ⟨heq, _⟩ | ⟨l1, b', l2, hdec, hbc, heq, hlt, hl1, hl2⟩
  · rw [heq] at h
    rw [Prod.mk.injEq] at h
    exact absurd h.1 (by simp)
  · rw [heq] at h
    rw [Prod.mk.injEq] at h
    obtain ⟨hb, hc⟩ := h
    have hb' : b' = b := by simpa using hb
    subst hb'
    subst hc
    refine ⟨by rw [hdec]; exact List.mem_append_right _ (List.mem_cons_self _ _), hbc, rfl,
      by simpa using hlt, ?_, l1, l2, hdec, hl1⟩
    intro a ha hac
    rw [hdec] at ha
    rcases List.mem_append.mp ha with ha | ha
    · exact le_of_lt (hl1 a ha hac)
    · rcases List.mem_cons.mp ha with rfl | ha
      · exact le_refl _
      · exact hl2 a ha hac

lemma pickBest_none_spec (nw : List BankoPlate) (safe excluded : List Nat)
    (blocked : List String) (c : Nat) :
    PrankCalculator.pickBest nw safe excluded blocked = (none, c) →
    ∀ a ∈ safe, excluded.contains a = false → nbOf nw blocked a = 0 := by
  intro h
  unfold PrankCalculator.pickBest at h
  rcases pickBest_go nw excluded blocked safe (none, 0)
    with ⟨heq, hb⟩ | ⟨l1, b', l2, hdec, hbc, heq, hlt, hl1, hl2⟩
  · rw [heq] at h
    intro a ha hac
    exact Nat.le_zero.mp (hb a ha hac)
  · rw [heq] at h
    rw [Prod.mk.injEq] at h
    exact absurd h.1 (by simp)

lemma greedyLoop_zero (nw : List BankoPlate) (safe excluded : List Nat)
    (blocked : List String) :
    PrankCalculator.greedyLoop nw safe 0 excluded blocked = excluded := rfl

lemma greedyLoop_succ (nw : List BankoPlate) (safe : List Nat) (fuel : Nat)
    (excluded : List Nat) (blocked : List String) :
    PrankCalculator.greedyLoop nw safe (fuel + 1) excluded blocked =
      if blocked.length < nw.length then
        PrankCalculator.greedyStep nw excluded blocked
          (PrankCalculator.pickBest nw safe excluded blocked)
          (PrankCalculator.greedyLoop nw safe fuel)
      else excluded := rfl

lemma greedyLoop_mem (nw : List BankoPlate) (safe : List Nat) :
    ∀ (fuel : Nat) (excluded : List Nat) (blocked : List String) (x : Nat),
      x ∈ PrankCalculator.greedyLoop nw safe fuel excluded blocked →
      x ∈ excluded ∨ x ∈ safe := by
  intro fuel
  induction fuel with
  | zero => intro excluded blocked x hx; exact Or.inl hx
  | succ n ih =>
    intro excluded blocked x hx
    rw [greedyLoop_succ] at hx
    split at hx
    · rcases hp : PrankCalculator.pickBest nw safe excluded blocked with ⟨ob, c⟩
      rw [hp] at hx
      cases ob with
      | some b =>
        simp only [PrankCalculator.greedyStep] at hx
        rcases ih _ _ _ hx with hmem | hmem
        · rcases List.mem_append.mp hmem with hmem | hmem
          · exact Or.inl hmem
          · have hxb : x = b := List.mem_singleton.mp hmem
            exact Or.inr (hxb ▸ (pickBest_some_spec nw safe excluded blocked b c hp).1)
        · exact Or.inr hmem
      | none =>
        simp only [PrankCalculator.greedyStep] at hx
        exact Or.inl hx
    · exact Or.inl hx

lemma findMinimalExclusionSet_mem (nw : List BankoPlate) (safe : List Nat) (x : Nat) :
    x ∈ PrankCalculator.findMinimalExclusionSet nw safe → x ∈ safe := by
  intro hx
  unfold PrankCalculator.findMinimalExclusionSet at hx
  split at hx
  · simp at hx
  · split at hx
    · simp at hx
    · rcases greedyLoop_mem nw safe _ [] [] x hx with h | h
      · simp at h
      · exact h

-- ============================================================================
-- C5: exclusions are safe (on non-winning plates, never on winning plates)
-- ============================================================================

lemma calculateExcludedNumbers_mem_safe (plates : List BankoPlate) (ids : List String)
    (n : Nat) :
    n ∈ (PrankCalculator.calculateExcludedNumbers plates ids).excludedNumbers →
    n ∈ PrankCalculator.safeToExcludeOf plates ids := by
  intro hn
  unfold PrankCalculator.calculateExcludedNumbers at hn
  simp only at hn
  have hperm := List.perm_insertionSort (· ≤ ·)
    (PrankCalculator.findMinimalExclusionSet
      (plates.filter (fun p => !(ids.contains p.id)))
      (PrankCalculator.safeToExcludeOf plates ids))
  exact findMinimalExclusionSet_mem _ _ _ (hperm.mem_iff.mp hn)

lemma findOptimalGo_zero (plates : List BankoPlate) (wc : Nat)
    (best : Option (List String × List Nat)) (score : Int) (r : RandSrc) :
    PrankCalculator.findOptimalGo plates wc 0 best score r = (best, r) := rfl

lemma findOptimalGo_succ (plates : List BankoPlate) (wc fuel : Nat)
    (best : Option (List String × List Nat)) (bestScore : Int) (r : RandSrc) :
    PrankCalculator.findOptimalGo plates wc (fuel + 1) best bestScore r =
      (let candidateWinnerIds :=
        ((shuffleArray plates r).1.take wc).map (fun p => p.id)
       let r1 := (shuffleArray plates r).2
       let len :=
        (PrankCalculator.calculateExcludedNumbers plates candidateWinnerIds).excludedNumbers.length
       let score := PrankCalculator.trialScore len
       let best' :=
        if score > bestScore then
          some (candidateWinnerIds,
                (PrankCalculator.calculateExcludedNumbers plates candidateWinnerIds).excludedNumbers)
        else best
       let bestScore' := if score > bestScore then score else bestScore
       if 5 ≤ len ∧ len ≤ 15 then (best', r1)
       else PrankCalculator.findOptimalGo plates wc fuel best' bestScore' r1) := rfl

/-- The invariant of the trial loop: a recorded best is always the output of
`calculateExcludedNumbers` for its own winner ids. -/
def goodBest (plates : List BankoPlate) : Option (List String × List Nat) → Prop
  | none => True
  | some pr =>
    ∃ ids, pr = (ids, (PrankCalculator.calculateExcludedNumbers plates ids).excludedNumbers)

lemma findOptimalGo_invariant (plates : List BankoPlate) (wc : Nat) :
    ∀ (fuel : Nat) (best : Option (List String × List Nat)) (score : Int) (r : RandSrc),
      goodBest plates best →
      goodBest plates (PrankCalculator.findOptimalGo plates wc fuel best score r).1 := by
  intro fuel
  induction fuel with
  | zero => intro best score r h; rw [findOptimalGo_zero]; exact h
  | succ n ih =>
    intro best score r h
    rw [findOptimalGo_succ]
    simp only
    split
    · split
      · exact ⟨_, rfl⟩
      · exact h
    · apply ih
      split
      · exact ⟨_, rfl⟩
      · exact h

/-- C5: every number `calculateExcludedNumbers` returns appears on at least one
non-winning plate and on no winning plate; consequently, in every result of the
winner-subset search (including the fallback), no winning plate has a number in
`excludedNumbers`. -/
theorem calculateExcludedNumbers_safe :
    (∀ (plates : List BankoPlate) (ids : List String) (n : Nat),
        n ∈ (PrankCalculator.calculateExcludedNumbers plates ids).excludedNumbers →
        (∃ p ∈ plates, ids.contains p.id = false ∧ n ∈ p.numbers) ∧
        (∀ p ∈ plates, ids.contains p.id = true → ¬n ∈ p.numbers))
    ∧ (∀ (plates : List BankoPlate) (wc : Nat) (r : RandSrc) (n : Nat) (p : BankoPlate),
        n ∈ ((PrankCalculator.findOptimalWinningPlates plates wc r).1).excludedNumbers →
        p ∈ plates →
        ((PrankCalculator.findOptimalWinningPlates plates wc r).1).winningPlateIds.contains p.id
          = true →
        ¬n ∈ p.numbers) := by
  have mainPart :
      ∀ (plates : List BankoPlate) (ids : List String) (n : Nat),
        n ∈ (PrankCalculator.calculateExcludedNumbers plates ids).excludedNumbers →
        (∃ p ∈ plates, ids.contains p.id = false ∧ n ∈ p.numbers) ∧
        (∀ p ∈ plates, ids.contains p.id = true → ¬n ∈ p.numbers) := by
    intro plates ids n hn
    have hsafe := calculateExcludedNumbers_mem_safe plates ids n hn
    unfold PrankCalculator.safeToExcludeOf at hsafe
    rw [List.mem_filter] at hsafe
    obtain ⟨hnonwin, hnotwin⟩ := hsafe
    constructor
    · rcases (collectUnique_mem _ n).mp hnonwin with ⟨p, hp, hnp⟩
      rw [List.mem_filter] at hp
      refine ⟨p, hp.1, ?_, hnp⟩
      have := hp.2
      simp only [Bool.not_eq_true'] at this
      exact this
    · intro p hp hpid hnp
      have hwin : n ∈ PrankCalculator.collectUnique
          (plates.filter (fun q => ids.contains q.id)) := by
        refine (collectUnique_mem _ n).mpr ⟨p, ?_, hnp⟩
        rw [List.mem_filter]
        exact ⟨hp, hpid⟩
      have hc := (contains_iff_mem _ n).mpr hwin
      rw [hc] at hnotwin
      simp at hnotwin
  refine ⟨mainPart, ?_⟩
  intro plates wc r n p hn hp hpid
  unfold PrankCalculator.findOptimalWinningPlates at hn hpid
  have hgood := findOptimalGo_invariant plates wc 100 none (-1) r trivial
  rcases hbest : (PrankCalculator.findOptimalGo plates wc 100 none (-1) r).1 with _ | pr
  · rw [hbest] at hn
    simp only [PrankCalculator.optimalFrom] at hn
    simp at hn
  · rw [hbest] at hn hpid
    rw [hbest] at hgood
    rcases hgood with ⟨ids, rfl⟩
    simp only [PrankCalculator.optimalFrom] at hn hpid
    exact (mainPart plates ids n hn).2 p hp hpid

def pz5 : BankoPlate := { id := "z", grid := [], numbers := [1, 2] }

def py5 : BankoPlate := { id := "y", grid := [], numbers := [3, 4] }

theorem calculateExcludedNumbers_safe_witness :
    (∃ p ∈ [pz5, py5], (["z"] : List String).contains p.id = false ∧ 3 ∈ p.numbers) ∧
      (∀ p ∈ [pz5, py5], (["z"] : List String).contains p.id = true → ¬(3 : Nat) ∈ p.numbers) :=
  calculateExcludedNumbers_safe.1 [pz5, py5] ["z"] 3 (by decide)

-- ============================================================================
-- C6: greedy tie-breaking is scan-order (first maximum), not lowest-numbered
-- ============================================================================

/-- A batch where the candidates 20 and 5 both block 2 plates (a tie at maximal
marginal coverage): 20 is on plates "a" and "b", 5 on "b" and "c", and 20 is
scanned first because it first occurs on the earlier plate "a". -/
def pa6 : BankoPlate :=
  { id := "a", grid := [], numbers := [4, 20, 21, 22, 30, 31, 32, 40, 41, 42, 50, 51, 52, 60, 61] }

def pb6 : BankoPlate :=
  { id := "b", grid := [], numbers := [5, 6, 7, 16, 17, 20, 26, 27, 36, 70, 71, 72, 80, 81, 82] }

def pc6 : BankoPlate :=
  { id := "c", grid := [], numbers := [5, 8, 9, 18, 19, 28, 29, 37, 38, 46, 47, 48, 63, 64, 65] }

def pw6 : BankoPlate :=
  { id := "w", grid := [], numbers := [1, 2, 3, 10, 11, 12, 13, 14, 15, 23, 24, 25, 33, 34, 35] }

def plates6 : List BankoPlate := [pw6, pa6, pb6, pc6]

/-- The non-winning plates of the tie batch under winner "w", exactly as
`calculateExcludedNumbers` filters them. -/
def nw6 : List BankoPlate := plates6.filter (fun p => !((["w"] : List String).contains p.id))

/-- The safe-to-exclude pool of the tie batch, in the first-occurrence scan order
of `calculateExcludedNumbers`. -/
def safe6 : List Nat := PrankCalculator.safeToExcludeOf plates6 ["w"]

/-- C6 (counterexample): in the first greedy iteration of
`findMinimalExclusionSet` on this input, the candidates 20 and 5 tie at the
maximal marginal coverage 2, yet the scan picks 20, not the lowest-numbered 5;
the chosen-order output is `[20, 5]`, and via `calculateExcludedNumbers` the
final exclusion set is `{5, 20}` rather than the `{4, 5}` a lowest-tie-break rule
would produce. -/
theorem pickBest_tie_not_lowest :
    PrankCalculator.pickBest nw6 safe6 [] [] = (some 20, 2) ∧
      nbOf nw6 [] 5 = 2 ∧ 5 ∈ safe6 ∧ (5 : Nat) < 20 ∧
      (∀ a ∈ safe6, nbOf nw6 [] a ≤ 2) ∧
      PrankCalculator.findMinimalExclusionSet nw6 safe6 = [20, 5] := by
  refine ⟨by decide, by decide, by decide, by decide, by decide, by decide⟩

/-- C6 (amended): the greedy scan is deterministic with scan-order tie-breaking:
a successful `pickBest` returns the candidate with maximal marginal coverage that
occurs EARLIEST in the first-occurrence scan order of `safeToExclude` (every
not-yet-excluded candidate scanned before it has strictly smaller coverage, every
other candidate has coverage at most its), so `findMinimalExclusionSet` is a
deterministic function of the winner subset and the input batch. -/
theorem pickBest_first_maximum (nw : List BankoPlate) (safe excluded : List Nat)
    (blocked : List String) (b : Nat) (c : Nat)
    (h : PrankCalculator.pickBest nw safe excluded blocked = (some b, c)) :
    b ∈ safe ∧ excluded.contains b = false ∧ c = nbOf nw blocked b ∧ 0 < c ∧
      (∀ a ∈ safe, excluded.contains a = false → nbOf nw blocked a ≤ c) ∧
      ∃ l1 l2, safe = l1 ++ b :: l2 ∧
        (∀ a ∈ l1, excluded.contains a = false → nbOf nw blocked a < c) :=
  pickBest_some_spec nw safe excluded blocked b c h

theorem pickBest_first_maximum_witness :
    20 ∈ safe6 ∧ ([] : List Nat).contains 20 = false ∧ (2 : Nat) = nbOf nw6 [] 20 ∧
      (0 : Nat) < 2 ∧
      (∀ a ∈ safe6, ([] : List Nat).contains a = false → nbOf nw6 [] a ≤ 2) ∧
      ∃ l1 l2, safe6 = l1 ++ 20 :: l2 ∧
        (∀ a ∈ l1, ([] : List Nat).contains a = false → nbOf nw6 [] a < 2) :=
  pickBest_first_maximum nw6 safe6 [] [] 20 2 (by decide)

-- ============================================================================
-- C8: the greedy loop is locally non-wasteful and stops at the right time
-- ============================================================================

/-- A plate is blocked by an exclusion list when one of its numbers is excluded. -/
def Blocked (excl : List Nat) (p : BankoPlate) : Prop :=
  ∃ n ∈ excl, n ∈ p.numbers

lemma addUniqueId_mem (acc : List String) (s x : String) :
    x ∈ PrankCalculator.addUniqueId acc s ↔ x ∈ acc ∨ x = s := by
  unfold PrankCalculator.addUniqueId
  split
  · rename_i hc
    constructor
    · exact Or.inl
    · rintro (hx | rfl)
      · exact hx
      · exact (contains_iff_mem acc x).mp hc
  · simp

lemma foldl_addUniqueId_mem (l : List String) :
    ∀ (acc : List String) (x : String),
      x ∈ l.foldl PrankCalculator.addUniqueId acc ↔ x ∈ acc ∨ x ∈ l := by
  induction l with
  | nil => simp
  | cons s ss ih =>
    intro acc x
    simp only [List.foldl_cons]
    rw [ih, addUniqueId_mem]
    simp only [List.mem_cons]
    tauto

lemma addUniqueId_nodup (acc : List String) (s : String) (h : acc.Nodup) :
    (PrankCalculator.addUniqueId acc s).Nodup := by
  unfold PrankCalculator.addUniqueId
  split
  · exact h
  · rename_i hc
    rw [List.nodup_append]
    refine ⟨h, List.nodup_singleton _, ?_⟩
    intro a ha hb
    rcases List.mem_singleton.mp hb with rfl
    exact absurd ((contains_iff_mem acc a).mpr ha) (by simpa using hc)

lemma foldl_addUniqueId_nodup (l : List String) :
    ∀ (acc : List String), acc.Nodup → (l.foldl PrankCalculator.addUniqueId acc).Nodup := by
  induction l with
  | nil => intro acc h; exact h
  | cons s ss ih =>
    intro acc h
    exact ih _ (addUniqueId_nodup acc s h)

lemma platesWithNumber_mem (nw : List BankoPlate) (num : Nat) (pid : String) :
    pid ∈ PrankCalculator.platesWithNumber nw num ↔
      ∃ p ∈ nw, p.id = pid ∧ num ∈ p.numbers := by
  suffices h : ∀ acc, pid ∈ nw.foldl
      (fun acc p => if p.numbers.contains num then PrankCalculator.addUniqueId acc p.id else acc)
      acc ↔ pid ∈ acc ∨ ∃ p ∈ nw, p.id = pid ∧ num ∈ p.numbers by
    have := h []
    simpa [PrankCalculator.platesWithNumber] using this
  induction nw with
  | nil => simp
  | cons p ps ih =>
    intro acc
    simp only [List.foldl_cons]
    by_cases hc : p.numbers.contains num
    · rw [if_pos hc]
      rw [ih, addUniqueId_mem]
      simp only [List.mem_cons]
      constructor
      · rintro ((h | rfl) | ⟨q, hq, hqe, hqn⟩)
        · exact Or.inl h
        · exact Or.inr ⟨p, Or.inl rfl, rfl, (contains_iff_mem _ _).mp hc⟩
        · exact Or.inr ⟨q, Or.inr hq, hqe, hqn⟩
      · rintro (h | ⟨q, hq | hq, hqe, hqn⟩)
        · exact Or.inl (Or.inl h)
        · exact Or.inl (Or.inr (hq ▸ hqe).symm)
        · exact Or.inr ⟨q, hq, hqe, hqn⟩
    · rw [if_neg hc]
      rw [ih]
      simp only [List.mem_cons]
      constructor
      · rintro (h | ⟨q, hq, hqe, hqn⟩)
        · exact Or.inl h
        · exact Or.inr ⟨q, Or.inr hq, hqe, hqn⟩
      · rintro (h | ⟨q, hq | hq, hqe, hqn⟩)
        · exact Or.inl h
        · exfalso
          subst hq
          exact absurd ((contains_iff_mem _ _).mpr hqn) (by simpa using hc)
        · exact Or.inr ⟨q, hq, hqe, hqn⟩

lemma newBlocksCount_pos (pwn blocked : List String) :
    0 < PrankCalculator.newBlocksCount pwn blocked →
    ∃ pid ∈ pwn, blocked.contains pid = false := by
  intro h
  unfold PrankCalculator.newBlocksCount at h
  have hne := List.length_pos.mp h
  rcases List.exists_mem_of_ne_nil _ hne with ⟨x, hx⟩
  rcases List.mem_filter.mp hx with ⟨hxm, hxc⟩
  exact ⟨x, hxm, by simpa using hxc⟩

lemma newBlocksCount_zero (pwn blocked : List String) :
    PrankCalculator.newBlocksCount pwn blocked = 0 →
    ∀ pid ∈ pwn, blocked.contains pid = true := by
  intro h pid hpid
  unfold PrankCalculator.newBlocksCount at h
  rw [List.length_eq_zero] at h
  by_contra hc
  have : pid ∈ pwn.filter (fun q => !(blocked.contains q)) :=
    List.mem_filter.mpr ⟨hpid, by simpa using hc⟩
  rw [h] at this
  exact absurd this (List.not_mem_nil _)

lemma nodup_subset_length {α : Type} [DecidableEq α] (l1 l2 : List α)
    (h1 : l1.Nodup) (hsub : ∀ x ∈ l1, x ∈ l2) : l1.length ≤ l2.length := by
  have hfin : l1.toFinset ⊆ l2.toFinset := by
    intro a ha
    rw [List.mem_toFinset] at ha ⊢
    exact hsub a ha
  calc l1.length = l1.toFinset.card := (List.toFinset_card_of_nodup h1).symm
    _ ≤ l2.toFinset.card := Finset.card_le_card hfin
    _ = l2.dedup.length := List.card_toFinset l2
    _ ≤ l2.length := (List.dedup_sublist l2).length_le

/-- The loop invariant of the greedy `while` loop: `blocked` holds exactly the
ids of the non-winning plates blocked by the numbers chosen so far, without
repetition. -/
def BlockedInv (nw : List BankoPlate) (excl : List Nat) (blocked : List String) : Prop :=
  blocked.Nodup ∧ ∀ pid, pid ∈ blocked ↔ ∃ p ∈ nw, p.id = pid ∧ Blocked excl p

lemma blockedInv_start (nw : List BankoPlate) : BlockedInv nw [] [] := by
  refine ⟨List.nodup_nil, ?_⟩
  intro pid
  simp [Blocked]

lemma blockedInv_step (nw : List BankoPlate) (excl : List Nat) (blocked : List String)
    (b : Nat) (h : BlockedInv nw excl blocked) :
    BlockedInv nw (excl ++ [b])
      ((PrankCalculator.platesWithNumber nw b).foldl PrankCalculator.addUniqueId blocked) := by
  obtain ⟨hnd, hmem⟩ := h
  refine ⟨foldl_addUniqueId_nodup _ _ hnd, ?_⟩
  intro pid
  rw [foldl_addUniqueId_mem, hmem, platesWithNumber_mem]
  constructor
  · rintro (⟨p, hp, hpe, n, hn, hnp⟩ | ⟨p, hp, hpe, hbp⟩)
    · exact ⟨p, hp, hpe, n, List.mem_append_left _ hn, hnp⟩
    · exact ⟨p, hp, hpe, b, List.mem_append_right _ (List.mem_singleton_self _), hbp⟩
  · rintro ⟨p, hp, hpe, n, hn, hnp⟩
    rcases List.mem_append.mp hn with hn | hn
    · exact Or.inl ⟨p, hp, hpe, n, hn, hnp⟩
    · rcases List.mem_singleton.mp hn with rfl
      exact Or.inr ⟨p, hp, hpe, hnp⟩

lemma blocked_of_mem_inv (nw : List BankoPlate) (excl : List Nat) (blocked : List String)
    (hids : (nw.map (fun p => p.id)).Nodup) (hinv : BlockedInv nw excl blocked)
    (p : BankoPlate) (hp : p ∈ nw) (hpid : p.id ∈ blocked) : Blocked excl p := by
  rcases (hinv.2 p.id).mp hpid with ⟨q, hq, hqe, hqb⟩
  have hqp : q = p := List.inj_on_of_nodup_map hids hq hp hqe
  exact hqp ▸ hqb

lemma greedyLoop_spec (nw : List BankoPlate) (safe : List Nat)
    (hids : (nw.map (fun p => p.id)).Nodup) :
    ∀ (fuel : Nat) (excl : List Nat) (blocked : List String),
      BlockedInv nw excl blocked →
      excl.Nodup → (∀ x ∈ excl, x ∈ safe) →
      safe.length + 1 ≤ fuel + excl.length →
      (∃ ext, PrankCalculator.greedyLoop nw safe fuel excl blocked = excl ++ ext ∧
        (∀ t1 x t2, ext = t1 ++ x :: t2 →
          ∃ p ∈ nw, x ∈ p.numbers ∧ ∀ j ∈ excl ++ t1, ¬j ∈ p.numbers))
      ∧ ((∀ p ∈ nw, Blocked (PrankCalculator.greedyLoop nw safe fuel excl blocked) p)
         ∨ (∀ a ∈ safe, ¬a ∈ PrankCalculator.greedyLoop nw safe fuel excl blocked →
              ∀ p ∈ nw, a ∈ p.numbers →
                Blocked (PrankCalculator.greedyLoop nw safe fuel excl blocked) p)) := by
  intro fuel
  induction fuel with
  | zero =>
    intro excl blocked hinv hnd hsub hfuel
    exfalso
    have := nodup_subset_length excl safe hnd hsub
    omega
  | succ n ih =>
    intro excl blocked hinv hnd hsub hfuel
    rw [greedyLoop_succ]
    split
    · rename_i hguard
      rcases hp : PrankCalculator.pickBest nw safe excl blocked with ⟨ob, c⟩
      cases ob with
      | some b =>
        simp only [PrankCalculator.greedyStep]
        obtain ⟨hbsafe, hbnotexcl, hceq, hcpos, _, _⟩ :=
          pickBest_some_spec nw safe excl blocked b c hp
        have hbnm : ¬b ∈ excl := by
          intro hmem
          rw [(contains_iff_mem excl b).mpr hmem] at hbnotexcl
          cases hbnotexcl
        have hinv' := blockedInv_step nw excl blocked b hinv
        have hnd' : (excl ++ [b]).Nodup := by
          rw [List.nodup_append]
          exact ⟨hnd, List.nodup_singleton _, by
            intro a ha hb
            rcases List.mem_singleton.mp hb with rfl
            exact hbnm ha⟩
        have hsub' : ∀ x ∈ excl ++ [b], x ∈ safe := by
          intro x hx
          rcases List.mem_append.mp hx with hx | hx
          · exact hsub x hx
          · rcases List.mem_singleton.mp hx with rfl
            exact hbsafe
        have hfuel' : safe.length + 1 ≤ n + (excl ++ [b]).length := by
          simp only [List.length_append, List.length_cons, List.length_nil]
          omega
        obtain ⟨⟨ext', heq', hprop'⟩, hdisj⟩ := ih (excl ++ [b]) _ hinv' hnd' hsub' hfuel'
        have hblockwitness : ∃ p ∈ nw, b ∈ p.numbers ∧ ∀ j ∈ excl, ¬j ∈ p.numbers := by
          have hcpos' : 0 < nbOf nw blocked b := hceq ▸ hcpos
          rcases newBlocksCount_pos _ _ hcpos' with ⟨pid, hpidm, hpidc⟩
          rcases (platesWithNumber_mem nw b pid).mp hpidm with ⟨p, hpnw, hpe, hbp⟩
          refine ⟨p, hpnw, hbp, ?_⟩
          intro j hj hjp
          have hblocked : p.id ∈ blocked := by
            rw [hinv.2]
            exact ⟨p, hpnw, rfl, j, hj, hjp⟩
          rw [hpe] at hblocked
          rw [(contains_iff_mem blocked pid).mpr hblocked] at hpidc
          cases hpidc
        constructor
        · refine ⟨b :: ext', by rw [heq']; simp, ?_⟩
          intro t1 x t2 hdec
          cases t1 with
          | nil =>
            simp only [List.nil_append] at hdec
            rw [List.cons.injEq] at hdec
            obtain ⟨rfl, rfl⟩ := hdec
            rcases hblockwitness with ⟨p, hpnw, hbp, hnone⟩
            refine ⟨p, hpnw, hbp, ?_⟩
            intro j hj
            rw [List.append_nil] at hj
            exact hnone j hj
          | cons y t1' =>
            rw [List.cons_append, List.cons.injEq] at hdec
            obtain ⟨rfl, hdec'⟩ := hdec
            rcases hprop' t1' x t2 hdec' with ⟨p, hpnw, hxp, hnone⟩
            refine ⟨p, hpnw, hxp, ?_⟩
            intro j hj
            refine hnone j ?_
            rcases List.mem_append.mp hj with hj | hj
            · exact List.mem_append_left _ (List.mem_append_left _ hj)
            · rcases List.mem_cons.mp hj with rfl | hj
              · exact List.mem_append_left _ (List.mem_append_right _ (List.mem_singleton_self _))
              · exact List.mem_append_right _ hj
        · exact hdisj
      | none =>
        simp only [PrankCalculator.greedyStep]
        constructor
        · exact ⟨[], by simp, by intro t1 x t2 hdec; exact absurd hdec (by simp)⟩
        · right
          intro a hasafe hanotmem p hpnw hap
          have hac : excl.contains a = false := by
            by_cases hmem : a ∈ excl
            · exact absurd hmem hanotmem
            · simp [contains_iff_mem, hmem]
          have hzero := pickBest_none_spec nw safe excl blocked c hp a hasafe hac
          have hpid : p.id ∈ PrankCalculator.platesWithNumber nw a :=
            (platesWithNumber_mem nw a p.id).mpr ⟨p, hpnw, rfl, hap⟩
          have hblk := newBlocksCount_zero _ _ hzero p.id hpid
          have hpb : p.id ∈ blocked := (contains_iff_mem blocked p.id).mp hblk
          exact blocked_of_mem_inv nw excl blocked hids hinv p hpnw hpb
    · rename_i hguard
      push_neg at hguard
      constructor
      · exact ⟨[], by simp, by intro t1 x t2 hdec; exact absurd hdec (by simp)⟩
      · left
        intro p hpnw
        have hsubB : blocked.toFinset ⊆ (nw.map (fun q => q.id)).toFinset := by
          intro pid hpid
          rw [List.mem_toFinset] at hpid ⊢
          rcases (hinv.2 pid).mp hpid with ⟨q, hq, hqe, _⟩
          exact List.mem_map.mpr ⟨q, hq, hqe⟩
        have hcard : (nw.map (fun q => q.id)).toFinset.card ≤ blocked.toFinset.card := by
          rw [List.toFinset_card_of_nodup hinv.1, List.toFinset_card_of_nodup hids]
          simpa using hguard
        have hfeq := Finset.eq_of_subset_of_card_le hsubB hcard
        have hpmem : p.id ∈ blocked := by
          have : p.id ∈ (nw.map (fun q => q.id)).toFinset := by
            rw [List.mem_toFinset]
            exact List.mem_map.mpr ⟨p, hpnw, rfl⟩
          rw [← hfeq] at this
          exact List.mem_toFinset.mp this
        exact blocked_of_mem_inv nw excl blocked hids hinv p hpnw hpmem

/-- C8: the greedy exclusion step is locally non-wasteful: every number in the
output of `findMinimalExclusionSet` blocks a non-winning plate not blocked by any
earlier selection (so no zero-marginal-coverage number is ever added), and the
loop stops exactly when every non-winning plate is blocked or no remaining safe
number has positive marginal coverage (every plate containing an unchosen safe
number is already blocked). -/
theorem findMinimalExclusionSet_nonwasteful (nw : List BankoPlate) (safe : List Nat)
    (hids : (nw.map (fun p => p.id)).Nodup) :
    (∀ t1 x t2, PrankCalculator.findMinimalExclusionSet nw safe = t1 ++ x :: t2 →
      ∃ p ∈ nw, x ∈ p.numbers ∧ ∀ j ∈ t1, ¬j ∈ p.numbers)
    ∧ ((∀ p ∈ nw, Blocked (PrankCalculator.findMinimalExclusionSet nw safe) p)
       ∨ (∀ a ∈ safe, ¬a ∈ PrankCalculator.findMinimalExclusionSet nw safe →
            ∀ p ∈ nw, a ∈ p.numbers →
              Blocked (PrankCalculator.findMinimalExclusionSet nw safe) p)) := by
  unfold PrankCalculator.findMinimalExclusionSet
  split
  · rename_i hempty
    constructor
    · intro t1 x t2 hdec
      exact absurd hdec (by simp)
    · left
      intro p hp
      rw [List.isEmpty_iff] at hempty
      rw [hempty] at hp
      exact absurd hp (List.not_mem_nil p)
  · split
    · rename_i hsempty
      constructor
      · intro t1 x t2 hdec
        exact absurd hdec (by simp)
      · right
        intro a hasafe
        rw [List.isEmpty_iff] at hsempty
        rw [hsempty] at hasafe
        exact absurd hasafe (List.not_mem_nil a)
    · obtain ⟨⟨ext, heq, hprop⟩, hdisj⟩ :=
        greedyLoop_spec nw safe hids (safe.length + 1) [] [] (blockedInv_start nw)
          List.nodup_nil (by simp) (by simp)
      constructor
      · intro t1 x t2 hdec
        rw [heq] at hdec
        simp only [List.nil_append] at hdec
        rcases hprop t1 x t2 hdec with ⟨p, hpnw, hxp, hnone⟩
        refine ⟨p, hpnw, hxp, ?_⟩
        intro j hj
        exact hnone j (by simpa using hj)
      · exact hdisj

def pq8 : BankoPlate := { id := "q", grid := [], numbers := [7, 8] }

def ps8 : BankoPlate := { id := "s", grid := [], numbers := [7, 9] }

theorem findMinimalExclusionSet_nonwasteful_witness :
    (∀ t1 x t2, PrankCalculator.findMinimalExclusionSet [pq8, ps8] [7, 8, 9] = t1 ++ x :: t2 →
      ∃ p ∈ [pq8, ps8], x ∈ p.numbers ∧ ∀ j ∈ t1, ¬j ∈ p.numbers)
    ∧ ((∀ p ∈ [pq8, ps8], Blocked (PrankCalculator.findMinimalExclusionSet [pq8, ps8] [7, 8, 9]) p)
       ∨ (∀ a ∈ [7, 8, 9], ¬a ∈ PrankCalculator.findMinimalExclusionSet [pq8, ps8] [7, 8, 9] →
            ∀ p ∈ [pq8, ps8], a ∈ p.numbers →
              Blocked (PrankCalculator.findMinimalExclusionSet [pq8, ps8] [7, 8, 9]) p)) :=
  findMinimalExclusionSet_nonwasteful [pq8, ps8] [7, 8, 9] (by decide)

-- ============================================================================
-- C10: the column distribution keeps columns at <= 3 rows, so number placement
-- never hits the range error and attemptPlateGeneration is total
-- ============================================================================

lemma cons_set_perm {α : Type} :
    ∀ (xs : List α) (j : Nat) (x b : α), xs[j]? = some b → (b :: xs.set j x).Perm (x :: xs) := by
  intro xs
  induction xs with
  | nil => intro j x b h; simp at h
  | cons y ys ih =>
    intro j x b h
    cases j with
    | zero =>
      simp only [List.getElem?_cons_zero, Option.some.injEq] at h
      subst h
      simp only [List.set_cons_zero]
      exact List.Perm.swap x _ ys
    | succ j =>
      simp only [List.getElem?_cons_succ] at h
      simp only [List.set_cons_succ]
      exact ((List.Perm.swap y b (ys.set j x)).trans
        (List.Perm.cons y (ih j x b h))).trans (List.Perm.swap x y ys)

lemma listSwap_perm {α : Type} :
    ∀ (l : List α) (i j : Nat), (listSwap l i j).Perm l := by
  intro l
  induction l with
  | nil => intro i j; unfold listSwap; simp
  | cons x xs ih =>
    intro i j
    unfold listSwap
    cases i with
    | zero =>
      cases j with
      | zero =>
        simp only [List.getElem?_cons_zero]
        simp only [List.set_cons_zero]
        exact List.Perm.refl _
      | succ j =>
        simp only [List.getElem?_cons_zero, List.getElem?_cons_succ]
        rcases hj : xs[j]? with _ | b
        · exact List.Perm.refl _
        · simp only [List.set_cons_zero, List.set_cons_succ]
          exact cons_set_perm xs j x b hj
    | succ i =>
      cases j with
      | zero =>
        simp only [List.getElem?_cons_zero, List.getElem?_cons_succ]
        rcases hi : xs[i]? with _ | a
        · exact List.Perm.refl _
        · simp only [List.set_cons_succ, List.set_cons_zero]
          exact cons_set_perm xs i x a hi
      | succ j =>
        simp only [List.getElem?_cons_succ]
        rcases hi : xs[i]? with _ | a
        · exact List.Perm.refl _
        · rcases hj : xs[j]? with _ | b
          · exact List.Perm.refl _
          · simp only [List.set_cons_succ]
            have := ih i j
            unfold listSwap at this
            rw [hi, hj] at this
            exact List.Perm.cons x this

lemma shuffleGo_perm {α : Type} :
    ∀ (i : Nat) (l : List α) (r : RandSrc), ((shuffleGo l i r).1).Perm l := by
  intro i
  induction i with
  | zero => intro l r; exact List.Perm.refl _
  | succ i ih =>
    intro l r
    show ((shuffleGo (listSwap l (i + 1) (randomInt 0 (i + 1) r).1) i
        (randomInt 0 (i + 1) r).2).1).Perm l
    exact (ih _ _).trans (listSwap_perm l (i + 1) _)

lemma shuffleArray_perm {α : Type} (l : List α) (r : RandSrc) :
    ((shuffleArray l r).1).Perm l :=
  shuffleGo_perm (l.length - 1) l r

/-- The bound carried through `distributeColumnsToRows`: every column list has at
most 3 entries. -/
def CCBound (cc : List (List Nat)) : Prop :=
  ∀ (c : Nat) (l : List Nat), cc[c]? = some l → l.length ≤ 3

lemma pushRow_other (col : Nat) (p : List (List Nat) × List Nat) (row c : Nat)
    (hne : c ≠ col) : ((PlateGenerator.pushRow col p row).1)[c]? = p.1[c]? := by
  unfold PlateGenerator.pushRow
  split
  · rcases hcc : p.1[col]? with _ | arr
    · rfl
    · simp only
      exact List.getElem?_set_ne (fun h => hne h.symm)
  · rfl

lemma pushRow_self (col : Nat) (p : List (List Nat) × List Nat) (row : Nat) (l : List Nat)
    (h : ((PlateGenerator.pushRow col p row).1)[col]? = some l) :
    ∃ l0, p.1[col]? = some l0 ∧ l.length ≤ l0.length + 1 := by
  unfold PlateGenerator.pushRow at h
  split at h
  · rcases hcc : p.1[col]? with _ | arr
    · rw [hcc] at h
      dsimp only at h
      rw [hcc] at h
      exact absurd h (by simp)
    · rw [hcc] at h
      dsimp only at h
      have hlt : col < p.1.length := (List.getElem?_eq_some_iff.mp hcc).1
      rw [List.getElem?_set_self (by simpa using hlt)] at h
      rw [Option.some.injEq] at h
      subst h
      exact ⟨arr, rfl, by simp⟩
  · exact ⟨l, h, by omega⟩

lemma foldl_pushRow_other (col c : Nat) (hne : c ≠ col) :
    ∀ (rows : List Nat) (p : List (List Nat) × List Nat),
      ((rows.foldl (PlateGenerator.pushRow col) p).1)[c]? = p.1[c]? := by
  intro rows
  induction rows with
  | nil => intro p; rfl
  | cons row rows ih =>
    intro p
    simp only [List.foldl_cons]
    rw [ih]
    exact pushRow_other col p row c hne

lemma foldl_pushRow_self (col : Nat) :
    ∀ (rows : List Nat) (p : List (List Nat) × List Nat) (l : List Nat),
      ((rows.foldl (PlateGenerator.pushRow col) p).1)[col]? = some l →
      ∃ l0, p.1[col]? = some l0 ∧ l.length ≤ l0.length + rows.length := by
  intro rows
  induction rows with
  | nil =>
    intro p l h
    exact ⟨l, h, by simp⟩
  | cons row rows ih =>
    intro p l h
    simp only [List.foldl_cons] at h
    rcases ih _ l h with ⟨l1, hl1, hlen1⟩
    rcases pushRow_self col p row l1 hl1 with ⟨l0, hl0, hlen0⟩
    exact ⟨l0, hl0, by simp only [List.length_cons]; omega⟩

lemma seedColumn_other (st : (List (List Nat) × List Nat) × RandSrc) (col c : Nat)
    (hne : c ≠ col) : ((PlateGenerator.seedColumn st col).1.1)[c]? = (st.1.1)[c]? := by
  unfold PlateGenerator.seedColumn
  dsimp only
  split
  · rfl
  · exact foldl_pushRow_other col c hne _ _

lemma randomInt_le (lo hi : Nat) (r : RandSrc) (h : lo ≤ hi) : (randomInt lo hi r).1 ≤ hi := by
  unfold randomInt
  simp only
  have hmod : (r.next).1 % (hi - lo + 1) < hi - lo + 1 := Nat.mod_lt _ (by omega)
  omega

lemma seedColumn_self (st : (List (List Nat) × List Nat) × RandSrc) (col : Nat)
    (hstart : (st.1.1)[col]? = some []) (l : List Nat)
    (h : ((PlateGenerator.seedColumn st col).1.1)[col]? = some l) : l.length ≤ 3 := by
  unfold PlateGenerator.seedColumn at h
  dsimp only at h
  split at h
  · rw [hstart] at h
    rw [Option.some.injEq] at h
    subst h
    simp
  · rcases foldl_pushRow_self col _ _ l h with ⟨l0, hl0, hlen⟩
    rw [hstart] at hl0
    rw [Option.some.injEq] at hl0
    subst hl0
    have htake : ((shuffleArray ([0, 1, 2].filter fun row => st.1.2.getD row 0 < 5)
        (randomInt 1 3 st.2).2).1.take
          (min (randomInt 1 3 st.2).1
            ([0, 1, 2].filter fun row => st.1.2.getD row 0 < 5).length)).length ≤ 3 := by
      have h3 : (randomInt 1 3 st.2).1 ≤ 3 := randomInt_le 1 3 st.2 (by omega)
      calc _ ≤ min (randomInt 1 3 st.2).1
            ([0, 1, 2].filter fun row => st.1.2.getD row 0 < 5).length := List.length_take_le _ _
        _ ≤ (randomInt 1 3 st.2).1 := Nat.min_le_left _ _
        _ ≤ 3 := h3
    simp only [List.length_nil] at hlen
    omega

lemma seed_foldl_bound :
    ∀ (order : List Nat) (st : (List (List Nat) × List Nat) × RandSrc),
      order.Nodup →
      (∀ (c : Nat) (l : List Nat), (st.1.1)[c]? = some l → l.length ≤ 3) →
      (∀ c ∈ order, (st.1.1)[c]? = some []) →
      ∀ (c : Nat) (l : List Nat),
        ((order.foldl PlateGenerator.seedColumn st).1.1)[c]? = some l → l.length ≤ 3 := by
  intro order
  induction order with
  | nil => intro st _ hbound _ c l h; exact hbound c l h
  | cons col rest ih =>
    intro st hnd hbound hempty c l h
    simp only [List.foldl_cons] at h
    rcases List.nodup_cons.mp hnd with ⟨hcolnot, hndrest⟩
    refine ih _ hndrest ?_ ?_ c l h
    · intro c' l' h'
      by_cases hc : c' = col
      · rw [hc] at h'
        exact seedColumn_self st col (hempty col (List.mem_cons_self _ _)) l' h'
      · rw [seedColumn_other st col c' hc] at h'
        exact hbound c' l' h'
    · intro c' hc'
      have hne : c' ≠ col := fun hcc => hcolnot (hcc ▸ hc')
      rw [seedColumn_other st col c' hne]
      exact hempty c' (List.mem_cons_of_mem _ hc')

lemma repairRowLoop_bound (columnOrder : List Nat) (row : Nat) :
    ∀ (fuel : Nat) (st : List (List Nat) × List Nat) (r : RandSrc),
      CCBound st.1 →
      CCBound ((PlateGenerator.repairRowLoop columnOrder row fuel st r).1).1 := by
  intro fuel
  induction fuel with
  | zero => intro st r hb; exact hb
  | succ n ih =>
    intro st r hb
    show CCBound ((PlateGenerator.repairRowLoop columnOrder row (n + 1) st r).1).1
    unfold PlateGenerator.repairRowLoop
    split
    · split
      · exact hb
      · rename_i hfilter
        rcases hopt : (columnOrder.filter (fun col => PlateGenerator.colAccepts st.1 col row))[(randomInt 0
            ((columnOrder.filter (fun col => PlateGenerator.colAccepts st.1 col row)).length - 1) r).1]?
          with _ | col
        · simp only [PlateGenerator.repairApply]
          exact ih _ _ hb
        · simp only [PlateGenerator.repairApply]
          have hcolmem : col ∈ columnOrder.filter (fun c => PlateGenerator.colAccepts st.1 c row) :=
            List.getElem?_mem hopt
          have hacc : PlateGenerator.colAccepts st.1 col row = true :=
            (List.mem_filter.mp hcolmem).2
          rcases hcc : st.1[col]? with _ | arr
          · unfold PlateGenerator.colAccepts at hacc
            rw [hcc] at hacc
            cases hacc
          · simp only [PlateGenerator.repairApply2]
            refine ih _ _ ?_
            intro c l hl
            by_cases hc : c = col
            · subst hc
              have hlt : c < st.1.length := (List.getElem?_eq_some_iff.mp hcc).1
              rw [List.getElem?_set_self hlt] at hl
              rw [Option.some.injEq] at hl
              subst hl
              unfold PlateGenerator.colAccepts at hacc
              rw [hcc] at hacc
              simp only [Bool.and_eq_true, decide_eq_true_eq] at hacc
              simp only [List.length_append, List.length_cons, List.length_nil]
              omega
            · rw [List.getElem?_set_ne (fun hx => hc hx.symm)] at hl
              exact hb c l hl
    · exact hb

lemma repair_foldl_bound (order : List Nat) :
    ∀ (rows : List Nat) (sts : (List (List Nat) × List Nat) × RandSrc),
      CCBound sts.1.1 →
      CCBound ((rows.foldl
        (fun (p : (List (List Nat) × List Nat) × RandSrc) row =>
          PlateGenerator.repairRowLoop order row 5 p.1 p.2) sts).1.1) := by
  intro rows
  induction rows with
  | nil => intro sts h; exact h
  | cons row rows ih =>
    intro sts h
    simp only [List.foldl_cons]
    exact ih _ (repairRowLoop_bound order row 5 sts.1 sts.2 h)

lemma distributeColumnsToRows_bound (r : RandSrc) :
    CCBound (PlateGenerator.distributeColumnsToRows r).1 := by
  unfold PlateGenerator.distributeColumnsToRows
  dsimp only
  have hperm := shuffleArray_perm [0, 1, 2, 3, 4, 5, 6, 7, 8] r
  have hnd : ((shuffleArray [0, 1, 2, 3, 4, 5, 6, 7, 8] r).1).Nodup :=
    hperm.nodup_iff.mpr (by decide)
  have hseed : ∀ (c : Nat) (l : List Nat),
      (((shuffleArray [0, 1, 2, 3, 4, 5, 6, 7, 8] r).1.foldl PlateGenerator.seedColumn
        ((List.replicate 9 [], [0, 0, 0]), (shuffleArray [0, 1, 2, 3, 4, 5, 6, 7, 8] r).2)).1.1)[c]? =
        some l → l.length ≤ 3 := by
    refine seed_foldl_bound _ _ hnd ?_ ?_
    · intro c l h
      simp only [List.getElem?_replicate] at h
      split at h
      · rw [Option.some.injEq] at h
        subst h
        simp
      · cases h
    · intro c hc
      have hc9 : c ∈ [0, 1, 2, 3, 4, 5, 6, 7, 8] := hperm.mem_iff.mp hc
      have hlt : c < 9 := by
        simp only [List.mem_cons, List.not_mem_nil, or_false] at hc9
        rcases hc9 with rfl | rfl | rfl | rfl | rfl | rfl | rfl | rfl | rfl <;> omega
      rw [List.getElem?_replicate, if_pos hlt]
  exact repair_foldl_bound (shuffleArray [0, 1, 2, 3, 4, 5, 6, 7, 8] r).1 [0, 1, 2] _
    (fun c l h => hseed c l h)

lemma colrange_size : ∀ pr ∈ COLUMN_RANGES, 9 ≤ pr.2 + 1 - pr.1 := by decide

lemma generateUniqueNumbersInRange_ok (lo hi count : Nat) (r : RandSrc)
    (h : count ≤ hi + 1 - lo) :
    PlateGenerator.generateUniqueNumbersInRange lo hi count r =
      (.ok (PlateGenerator.drawUnique (List.range' lo (hi + 1 - lo)) count r).1,
       (PlateGenerator.drawUnique (List.range' lo (hi + 1 - lo)) count r).2) := by
  unfold PlateGenerator.generateUniqueNumbersInRange
  rw [if_neg]
  simp only [List.length_range']
  omega

lemma placeNumbersGo_ok (cc : List (List Nat)) (hb : CCBound cc) :
    ∀ (cols : List Nat) (g : BankoGrid) (r : RandSrc),
      ∃ g' r', PlateGenerator.placeNumbersGo cc cols g r = (Except.ok g', r') := by
  intro cols
  induction cols with
  | nil => intro g r; exact ⟨g, r, rfl⟩
  | cons col cols ih =>
    intro g r
    simp only [PlateGenerator.placeNumbersGo]
    rcases hcc : cc[col]? with _ | rows
    · simp only [PlateGenerator.placeColStep]
      exact ih g r
    · simp only [PlateGenerator.placeColStep]
      split
      · exact ih g r
      · rcases hcr : COLUMN_RANGES[col]? with _ | range
        · exact ih g r
        · have hmem : range ∈ COLUMN_RANGES := List.getElem?_mem hcr
          have hsize : 9 ≤ range.2 + 1 - range.1 := colrange_size range hmem
          have hrows : rows.length ≤ 3 := hb col rows hcc
          dsimp only
          rw [generateUniqueNumbersInRange_ok range.1 range.2 rows.length r (by omega)]
          simp only [PlateGenerator.placeDraw]
          exact ih _ _

/-- C10: every column distribution from `distributeColumnsToRows` assigns at most
3 row indices to each column, every column range holds at least 9 numbers, and
consequently `attemptPlateGeneration` never reaches the
`generateUniqueNumbersInRange` error branch: it is total and always returns a
draft plate. -/
theorem attemptPlateGeneration_total (r : RandSrc) :
    (∀ colRows ∈ (PlateGenerator.distributeColumnsToRows r).1, colRows.length ≤ 3)
    ∧ (∀ pr ∈ COLUMN_RANGES, 9 ≤ pr.2 + 1 - pr.1)
    ∧ ∃ p r', PlateGenerator.attemptPlateGeneration r = (Except.ok p, r') := by
  refine ⟨?_, colrange_size, ?_⟩
  · intro colRows hmem
    rcases List.mem_iff_getElem?.mp hmem with ⟨c, hc⟩
    exact distributeColumnsToRows_bound r c colRows hc
  · unfold PlateGenerator.attemptPlateGeneration
    rcases placeNumbersGo_ok _
        (distributeColumnsToRows_bound (PlateGenerator.generatePlateId r).2)
        (List.range 9) PlateGenerator.createEmptyGrid
        (PlateGenerator.distributeColumnsToRows (PlateGenerator.generatePlateId r).2).2
      with ⟨g', r', hok⟩
    rw [show PlateGenerator.placeNumbersInGrid PlateGenerator.createEmptyGrid
        (PlateGenerator.distributeColumnsToRows (PlateGenerator.generatePlateId r).2).1
        (PlateGenerator.distributeColumnsToRows (PlateGenerator.generatePlateId r).2).2 =
        PlateGenerator.placeNumbersGo
          (PlateGenerator.distributeColumnsToRows (PlateGenerator.generatePlateId r).2).1
          (List.range 9) PlateGenerator.createEmptyGrid
          (PlateGenerator.distributeColumnsToRows (PlateGenerator.generatePlateId r).2).2
      from rfl, hok]
    exact ⟨_, r', rfl⟩

-- ============================================================================
-- C7: the uniqueness hash is a canonical function of the number set
-- ============================================================================

lemma repr_data_facts : ∀ n < 91, (Nat.repr n).data ≠ [] ∧ ¬(',' ∈ (Nat.repr n).data) := by
  decide

lemma repr_inj_bounded : ∀ a < 91, ∀ b < 91, Nat.repr a = Nat.repr b → a = b := by
  decide

lemma comma_split_inj :
    ∀ (a b t u : List Char), ¬(',' ∈ a) → ¬(',' ∈ b) → a ++ ',' :: t = b ++ ',' :: u →
      a = b ∧ t = u := by
  intro a
  induction a with
  | nil =>
    intro b t u _ hb h
    cases b with
    | nil =>
      simp only [List.nil_append] at h
      rw [List.cons.injEq] at h
      exact ⟨rfl, h.2⟩
    | cons y ys =>
      simp only [List.nil_append, List.cons_append] at h
      rw [List.cons.injEq] at h
      exfalso
      exact hb (h.1 ▸ List.mem_cons_self y ys)
  | cons x xs ih =>
    intro b t u ha hb h
    cases b with
    | nil =>
      simp only [List.cons_append, List.nil_append] at h
      rw [List.cons.injEq] at h
      exfalso
      exact ha (h.1.symm ▸ List.mem_cons_self x xs)
    | cons y ys =>
      simp only [List.cons_append] at h
      rw [List.cons.injEq] at h
      obtain ⟨rfl, h2⟩ := h
      have hxs : ¬(',' ∈ xs) := fun hm => ha (List.mem_cons_of_mem _ hm)
      have hys : ¬(',' ∈ ys) := fun hm => hb (List.mem_cons_of_mem _ hm)
      rcases ih ys t u hxs hys h2 with ⟨rfl, rfl⟩
      exact ⟨rfl, rfl⟩

lemma joinComma_cons_cons_data (a : Nat) (b : Nat) (rest : List Nat) :
    (Validator.joinComma (a :: b :: rest)).data =
      (Nat.repr a).data ++ ',' :: (Validator.joinComma (b :: rest)).data := by
  show (Nat.repr a ++ "," ++ Validator.joinComma (b :: rest)).data = _
  rw [String.data_append, String.data_append, List.append_assoc]
  have hcomma : ("," : String).data = [','] := by decide
  rw [hcomma]
  rfl

lemma joinComma_inj :
    ∀ (xs ys : List Nat), (∀ x ∈ xs, x < 91) → (∀ y ∈ ys, y < 91) →
      Validator.joinComma xs = Validator.joinComma ys → xs = ys := by
  intro xs
  induction xs with
  | nil =>
    intro ys _ hy h
    cases ys with
    | nil => rfl
    | cons y ys2 =>
      cases ys2 with
      | nil =>
        exfalso
        have hd := congrArg String.data h
        have := (repr_data_facts y (hy y (List.mem_cons_self _ _))).1
        simp only [Validator.joinComma] at hd
        exact this hd.symm
      | cons y2 ys3 =>
        exfalso
        have hd := congrArg String.data h
        rw [joinComma_cons_cons_data] at hd
        simp only [Validator.joinComma] at hd
        exact absurd hd.symm (by simp)
  | cons x xs2 ih =>
    intro ys hx hy h
    cases ys with
    | nil =>
      exfalso
      have hd := congrArg String.data h
      cases xs2 with
      | nil =>
        have := (repr_data_facts x (hx x (List.mem_cons_self _ _))).1
        simp only [Validator.joinComma] at hd
        exact this hd
      | cons x2 xs3 =>
        rw [joinComma_cons_cons_data] at hd
        simp only [Validator.joinComma] at hd
        exact absurd hd (by simp)
    | cons y ys2 =>
      cases xs2 with
      | nil =>
        cases ys2 with
        | nil =>
          have := repr_inj_bounded x (hx x (List.mem_cons_self _ _)) y
            (hy y (List.mem_cons_self _ _)) (by simpa [Validator.joinComma] using h)
          rw [this]
        | cons y2 ys3 =>
          exfalso
          have hd := congrArg String.data h
          rw [joinComma_cons_cons_data] at hd
          simp only [Validator.joinComma] at hd
          have hmem : ',' ∈ (Nat.repr x).data := by
            rw [hd]
            exact List.mem_append_right _ (List.mem_cons_self _ _)
          exact (repr_data_facts x (hx x (List.mem_cons_self _ _))).2 hmem
      | cons x2 xs3 =>
        cases ys2 with
        | nil =>
          exfalso
          have hd := congrArg String.data h
          rw [joinComma_cons_cons_data] at hd
          simp only [Validator.joinComma] at hd
          have hmem : ',' ∈ (Nat.repr y).data := by
            rw [← hd]
            exact List.mem_append_right _ (List.mem_cons_self _ _)
          exact (repr_data_facts y (hy y (List.mem_cons_self _ _))).2 hmem
        | cons y2 ys3 =>
          have hd := congrArg String.data h
          rw [joinComma_cons_cons_data, joinComma_cons_cons_data] at hd
          rcases comma_split_inj _ _ _ _
              (repr_data_facts x (hx x (List.mem_cons_self _ _))).2
              (repr_data_facts y (hy y (List.mem_cons_self _ _))).2 hd with ⟨hxy, htail⟩
          have hxeq : x = y := repr_inj_bounded x (hx x (List.mem_cons_self _ _)) y
            (hy y (List.mem_cons_self _ _)) (by
              apply String.ext
              exact hxy)
          have htails : Validator.joinComma (x2 :: xs3) = Validator.joinComma (y2 :: ys3) :=
            String.ext htail
          have := ih (y2 :: ys3) (fun a ha => hx a (List.mem_cons_of_mem _ ha))
            (fun a ha => hy a (List.mem_cons_of_mem _ ha)) htails
          rw [hxeq, this]

/-- C7: the uniqueness hash used for batch-level duplicate detection is a pure
function of the card's number set: on cards whose `numbers` lists are strictly
sorted with entries at most 90 (as every generated banko card's are), two cards
hash equal exactly when their number sets coincide — independent of their ids and
grid arrangement — and the batch hash agrees with the validator's
sort-then-join canonical signature. -/
theorem getPlateHash_canonical (p q : BankoPlate)
    (hp : List.Sorted (· < ·) p.numbers) (hq : List.Sorted (· < ·) q.numbers)
    (hp90 : ∀ n ∈ p.numbers, n ≤ 90) (hq90 : ∀ n ∈ q.numbers, n ≤ 90) :
    (PlateGenerator.getPlateHash p = PlateGenerator.getPlateHash q ↔
      p.numbers.toFinset = q.numbers.toFinset)
    ∧ PlateGenerator.getPlateHash p = Validator.getPlateHash p := by
  haveI : IsAntisymm Nat (· < ·) := ⟨fun a b h1 h2 => absurd h2 (Nat.lt_asymm h1)⟩
  constructor
  · constructor
    · intro h
      have heq : p.numbers = q.numbers :=
        joinComma_inj p.numbers q.numbers
          (fun x hx => by have := hp90 x hx; omega)
          (fun y hy => by have := hq90 y hy; omega) h
      rw [heq]
    · intro h
      have hperm : p.numbers.Perm q.numbers :=
        List.perm_of_nodup_nodup_toFinset_eq hp.nodup hq.nodup h
      have heq : p.numbers = q.numbers := List.eq_of_perm_of_sorted hperm hp hq
      unfold PlateGenerator.getPlateHash
      rw [heq]
  · unfold PlateGenerator.getPlateHash Validator.getPlateHash
    have hs : List.Sorted (· ≤ ·) p.numbers := hp.imp (fun h => le_of_lt h)
    rw [hs.insertionSort_eq]

def phash1 : BankoPlate :=
  { id := "hash-a", grid := [], numbers := [1, 12, 23, 34, 45, 56, 67, 78, 89] }

def phash2 : BankoPlate :=
  { id := "hash-b", grid := [[some 1]], numbers := [1, 12, 23, 34, 45, 56, 67, 78, 89] }

theorem getPlateHash_canonical_witness :
    (PlateGenerator.getPlateHash phash1 = PlateGenerator.getPlateHash phash2 ↔
      phash1.numbers.toFinset = phash2.numbers.toFinset)
    ∧ PlateGenerator.getPlateHash phash1 = Validator.getPlateHash phash1 :=
  getPlateHash_canonical phash1 phash2 (by decide) (by decide) (by decide) (by decide)

-- ============================================================================
-- C9: sortColumnsAscending — frame, per-column multiset, ascending order
-- ============================================================================

/-- The values of one column, top to bottom (rows 0-2), as read by the sorter. -/
def colValues (g : BankoGrid) (c : Nat) : List Nat :=
  (PlateGenerator.colEntries g c).map (fun e => e.2)

lemma getCell_setCell_ne_row (g : BankoGrid) (row col : Nat) (v : Option Nat) (r k : Nat)
    (h : r ≠ row) :
    PlateGenerator.getCell (PlateGenerator.setCell g row col v) r k =
      PlateGenerator.getCell g r k := by
  unfold PlateGenerator.setCell
  rcases hg : g[row]? with _ | gridRow
  · rfl
  · unfold PlateGenerator.getCell
    rw [List.getElem?_set_ne (fun hx => h hx.symm)]

lemma getCell_setCell_ne_col (g : BankoGrid) (row col : Nat) (v : Option Nat) (r k : Nat)
    (h : k ≠ col) :
    PlateGenerator.getCell (PlateGenerator.setCell g row col v) r k =
      PlateGenerator.getCell g r k := by
  by_cases hr : r = row
  · subst hr
    unfold PlateGenerator.setCell
    rcases hg : g[r]? with _ | gridRow
    · rfl
    · unfold PlateGenerator.getCell
      have hlt : r < g.length := (List.getElem?_eq_some_iff.mp hg).1
      rw [List.getElem?_set_self hlt, hg]
      dsimp only
      rw [List.getElem?_set_ne (fun hx => h hx.symm)]
  · exact getCell_setCell_ne_row g row col v r k hr

lemma getCell_setCell_occ (g : BankoGrid) (row col : Nat) (v : Option Nat) (w : Nat)
    (h : PlateGenerator.getCell g row col = some w) :
    PlateGenerator.getCell (PlateGenerator.setCell g row col v) row col = v := by
  unfold PlateGenerator.getCell at h
  rcases hg : g[row]? with _ | gridRow
  · rw [hg] at h
    dsimp only at h
    exact absurd h (by simp)
  · rw [hg] at h
    dsimp only at h
    rcases hc : gridRow[col]? with _ | cell
    · rw [hc] at h
      dsimp only at h
      exact absurd h (by simp)
    · unfold PlateGenerator.setCell PlateGenerator.getCell
      rw [hg]
      dsimp only
      have hlt : row < g.length := (List.getElem?_eq_some_iff.mp hg).1
      rw [List.getElem?_set_self hlt]
      dsimp only
      have hltc : col < gridRow.length := (List.getElem?_eq_some_iff.mp hc).1
      rw [List.getElem?_set_self hltc]

lemma setCell_length (g : BankoGrid) (row col : Nat) (v : Option Nat) :
    (PlateGenerator.setCell g row col v).length = g.length := by
  unfold PlateGenerator.setCell
  rcases hg : g[row]? with _ | gridRow
  · rfl
  · exact List.length_set ..

lemma setCell_rowlen (g : BankoGrid) (row col : Nat) (v : Option Nat) (i : Nat) :
    ((PlateGenerator.setCell g row col v)[i]?).map List.length = (g[i]?).map List.length := by
  unfold PlateGenerator.setCell
  rcases hg : g[row]? with _ | gridRow
  · rfl
  · by_cases hi : i = row
    · subst hi
      have hlt : i < g.length := (List.getElem?_eq_some_iff.mp hg).1
      rw [List.getElem?_set_self hlt, hg]
      simp [List.length_set]
    · rw [List.getElem?_set_ne (fun hx => hi hx.symm)]

/-- Cell reads after the write-back fold of `sortOneColumn`: written rows read
their new value, everything else is untouched. -/
lemma writeFold_spec (c : Nat) :
    ∀ (pairs : List (Nat × Nat)) (g : BankoGrid),
      ((pairs.map Prod.fst).Nodup) →
      (∀ pr ∈ pairs, ∃ w, PlateGenerator.getCell g pr.1 c = some w) →
      (∀ r k, (k ≠ c ∨ ¬r ∈ pairs.map Prod.fst) →
        PlateGenerator.getCell
          (pairs.foldl (fun gg rv => PlateGenerator.setCell gg rv.1 c (some rv.2)) g) r k =
          PlateGenerator.getCell g r k)
      ∧ (∀ r v, (r, v) ∈ pairs →
        PlateGenerator.getCell
          (pairs.foldl (fun gg rv => PlateGenerator.setCell gg rv.1 c (some rv.2)) g) r c =
          some v) := by
  intro pairs
  induction pairs with
  | nil =>
    intro g _ _
    exact ⟨fun r k _ => rfl, fun r v hv => absurd hv (List.not_mem_nil _)⟩
  | cons rv rest ih =>
    intro g hnd hocc
    have hnd' : (rest.map Prod.fst).Nodup := (List.nodup_cons.mp (by simpa using hnd)).2
    have hheadnot : ¬rv.1 ∈ rest.map Prod.fst := (List.nodup_cons.mp (by simpa using hnd)).1
    rcases hocc rv (List.mem_cons_self _ _) with ⟨w, hw⟩
    have hocc' : ∀ pr ∈ rest, ∃ w',
        PlateGenerator.getCell (PlateGenerator.setCell g rv.1 c (some rv.2)) pr.1 c = some w' := by
      intro pr hpr
      by_cases hr : pr.1 = rv.1
      · rw [hr, getCell_setCell_occ g rv.1 c (some rv.2) w hw]
        exact ⟨rv.2, rfl⟩
      · rw [getCell_setCell_ne_row g rv.1 c (some rv.2) pr.1 c hr]
        exact hocc pr (List.mem_cons_of_mem _ hpr)
    rcases ih (PlateGenerator.setCell g rv.1 c (some rv.2)) hnd' hocc' with ⟨ihframe, ihwrite⟩
    constructor
    · intro r k hk
      simp only [List.foldl_cons]
      have hk' : k ≠ c ∨ ¬r ∈ rest.map Prod.fst := by
        rcases hk with hk | hk
        · exact Or.inl hk
        · refine Or.inr (fun hmem => hk ?_)
          simp only [List.map_cons, List.mem_cons]
          exact Or.inr hmem
      rw [ihframe r k hk']
      rcases hk with hk | hk
      · exact getCell_setCell_ne_col g rv.1 c (some rv.2) r k hk
      · refine getCell_setCell_ne_row g rv.1 c (some rv.2) r k (fun hr => hk ?_)
        simp only [List.map_cons, List.mem_cons]
        exact Or.inl hr
    · intro r v hv
      simp only [List.foldl_cons]
      rcases List.mem_cons.mp hv with hv | hv
      · have hr : r = rv.1 := by rw [← hv]
        have hvv : v = rv.2 := by rw [← hv]
        subst hr
        subst hvv
        have hframe := ihframe rv.1 c (Or.inr hheadnot)
        rw [hframe]
        exact getCell_setCell_occ g rv.1 c (some rv.2) w hw
      · exact ihwrite r v hv

lemma writeFold_length (c : Nat) :
    ∀ (pairs : List (Nat × Nat)) (g : BankoGrid),
      (pairs.foldl (fun gg rv => PlateGenerator.setCell gg rv.1 c (some rv.2)) g).length =
        g.length := by
  intro pairs
  induction pairs with
  | nil => intro g; rfl
  | cons rv rest ih =>
    intro g
    simp only [List.foldl_cons]
    rw [ih, setCell_length]

lemma writeFold_rowlen (c : Nat) :
    ∀ (pairs : List (Nat × Nat)) (g : BankoGrid) (i : Nat),
      (((pairs.foldl (fun gg rv => PlateGenerator.setCell gg rv.1 c (some rv.2)) g))[i]?).map
          List.length = (g[i]?).map List.length := by
  intro pairs
  induction pairs with
  | nil => intro g i; rfl
  | cons rv rest ih =>
    intro g i
    simp only [List.foldl_cons]
    rw [ih, setCell_rowlen]

lemma colEntries_mem (g : BankoGrid) (c : Nat) (r v : Nat) :
    (r, v) ∈ PlateGenerator.colEntries g c ↔
      r ∈ [0, 1, 2] ∧ PlateGenerator.getCell g r c = some v := by
  unfold PlateGenerator.colEntries
  rw [List.mem_filterMap]
  constructor
  · rintro ⟨a, ha, hfa⟩
    rcases hg : PlateGenerator.getCell g a c with _ | w
    · rw [hg] at hfa; cases hfa
    · rw [hg] at hfa
      simp only [Option.map_some', Option.some.injEq, Prod.mk.injEq] at hfa
      obtain ⟨rfl, rfl⟩ := hfa
      exact ⟨ha, hg⟩
  · rintro ⟨hr, hv⟩
    exact ⟨r, hr, by rw [hv]; rfl⟩

lemma map_fst_filterMap_sublist {β : Type} (f : Nat → Option (Nat × β))
    (hf : ∀ a b, f a = some b → b.1 = a) :
    ∀ l : List Nat, ((l.filterMap f).map Prod.fst).Sublist l := by
  intro l
  induction l with
  | nil => exact List.nil_sublist _
  | cons a l ih =>
    rw [List.filterMap_cons]
    rcases hfa : f a with _ | b
    · exact ih.cons a
    · simp only [List.map_cons]
      rw [hf a b hfa]
      exact ih.cons₂ a

lemma filterMap_eq_nil_of_none {β : Type} (f : Nat → Option β) :
    ∀ l : List Nat, (∀ r ∈ l, f r = none) → l.filterMap f = [] := by
  intro l
  induction l with
  | nil => intro _; rfl
  | cons a l ih =>
    intro h
    rw [List.filterMap_cons, h a (List.mem_cons_self _ _)]
    exact ih (fun r hr => h r (List.mem_cons_of_mem _ hr))

lemma filterMap_eq_of_sublist {β : Type} (f : Nat → Option (Nat × β)) :
    ∀ (scan : List Nat) (pairs : List (Nat × β)),
      scan.Nodup →
      ((pairs.map Prod.fst).Sublist scan) →
      (∀ pr ∈ pairs, f pr.1 = some pr) →
      (∀ r ∈ scan, ¬r ∈ pairs.map Prod.fst → f r = none) →
      scan.filterMap f = pairs := by
  intro scan
  induction scan with
  | nil =>
    intro pairs _ hsub _ _
    have : pairs.map Prod.fst = [] := List.sublist_nil.mp hsub
    rw [List.map_eq_nil_iff] at this
    rw [this]
    rfl
  | cons s scan' ih =>
    intro pairs hnd hsub hsome hnone
    rcases List.nodup_cons.mp hnd with ⟨hsnot, hnd'⟩
    cases pairs with
    | nil =>
      refine filterMap_eq_nil_of_none f _ ?_
      intro r hr
      exact hnone r hr (by simp)
    | cons pr rest =>
      simp only [List.map_cons] at hsub
      cases hsub with
      | cons _ hsub' =>
        have hsmem : ¬s ∈ (pr :: rest).map Prod.fst := by
          intro hmem
          simp only [List.map_cons] at hmem
          exact hsnot (hsub'.subset hmem)
        rw [List.filterMap_cons, hnone s (List.mem_cons_self _ _) hsmem]
        exact ih (pr :: rest) hnd' hsub' hsome
          (fun r hr hnot => hnone r (List.mem_cons_of_mem _ hr) hnot)
      | cons₂ _ hsub' =>
        rw [List.filterMap_cons]
        have hfs : f pr.1 = some pr := hsome pr (List.mem_cons_self _ _)
        rw [hfs]
        dsimp only
        congr 1
        refine ih rest hnd' hsub' (fun q hq => hsome q (List.mem_cons_of_mem _ hq)) ?_
        intro r hr hnot
        refine hnone r (List.mem_cons_of_mem _ hr) ?_
        simp only [List.map_cons, List.mem_cons]
        rintro (hre | hre)
        · exact hsnot (hre ▸ hr)
        · exact hnot hre

instance pairSndLeTotal : IsTotal (Nat × Nat) (fun a b : Nat × Nat => a.2 ≤ b.2) :=
  ⟨fun a b => Nat.le_total a.2 b.2⟩

instance pairSndLeTrans : IsTrans (Nat × Nat) (fun a b : Nat × Nat => a.2 ≤ b.2) :=
  ⟨fun _ _ _ h1 h2 => le_trans h1 h2⟩

lemma colEntries_fst_sublist (g : BankoGrid) (c : Nat) :
    ((PlateGenerator.colEntries g c).map Prod.fst).Sublist [0, 1, 2] := by
  unfold PlateGenerator.colEntries
  refine map_fst_filterMap_sublist _ ?_ _
  intro a b hab
  rcases hg : PlateGenerator.getCell g a c with _ | w
  · rw [hg] at hab; cases hab
  · rw [hg] at hab
    simp only [Option.map_some', Option.some.injEq] at hab
    rw [← hab]

lemma colEntries_none (g : BankoGrid) (c : Nat) (r : Nat) (hr : r ∈ [0, 1, 2])
    (hnot : ¬r ∈ (PlateGenerator.colEntries g c).map Prod.fst) :
    PlateGenerator.getCell g r c = none := by
  rcases hg : PlateGenerator.getCell g r c with _ | w
  · rfl
  · exfalso
    refine hnot (List.mem_map.mpr ⟨(r, w), ?_, rfl⟩)
    exact (colEntries_mem g c r w).mpr ⟨hr, hg⟩

lemma sortOneColumn_spec (g : BankoGrid) (c : Nat) :
    (∀ r k, k ≠ c →
        PlateGenerator.getCell (PlateGenerator.sortOneColumn g c) r k =
          PlateGenerator.getCell g r k)
    ∧ (∀ r, PlateGenerator.getCell (PlateGenerator.sortOneColumn g c) r c = none ↔
        PlateGenerator.getCell g r c = none)
    ∧ (colValues (PlateGenerator.sortOneColumn g c) c).Perm (colValues g c)
    ∧ ((colValues g c).Nodup →
        List.Sorted (· < ·) (colValues (PlateGenerator.sortOneColumn g c) c))
    ∧ (PlateGenerator.sortOneColumn g c).length = g.length
    ∧ (∀ i : Nat, ((PlateGenerator.sortOneColumn g c)[i]?).map List.length =
        (g[i]?).map List.length) := by
  by_cases hshort : (PlateGenerator.colEntries g c).length ≤ 1
  · have hid : PlateGenerator.sortOneColumn g c = g := by
      unfold PlateGenerator.sortOneColumn
      rw [if_pos hshort]
    rw [hid]
    refine ⟨fun r k _ => rfl, fun r => Iff.rfl, List.Perm.refl _, ?_, rfl, fun i => rfl⟩
    intro _
    have hlen : (colValues g c).length ≤ 1 := by
      unfold colValues
      rw [List.length_map]
      exact hshort
    rcases hval : colValues g c with _ | ⟨x, rest⟩
    · exact List.sorted_nil
    · rcases rest with _ | ⟨y, rest2⟩
      · exact List.sorted_singleton x
      · rw [hval] at hlen
        simp at hlen
  · -- at least two entries: the sorter rewrites the column
    have hrows_sorted : List.Sorted (· < ·) ((PlateGenerator.colEntries g c).map Prod.fst) := by
      have h012 : List.Sorted (· < ·) [0, 1, 2] := by decide
      exact h012.sublist (colEntries_fst_sublist g c)
    have hrows_sortedLE : List.Sorted (· ≤ ·)
        ((PlateGenerator.colEntries g c).map Prod.fst) :=
      hrows_sorted.imp (fun h => le_of_lt h)
    have hrows_nodup : ((PlateGenerator.colEntries g c).map Prod.fst).Nodup :=
      hrows_sorted.nodup
    have hsortedE := List.sorted_insertionSort (fun a b : Nat × Nat => a.2 ≤ b.2)
      (PlateGenerator.colEntries g c)
    have hpermE := List.perm_insertionSort (fun a b : Nat × Nat => a.2 ≤ b.2)
      (PlateGenerator.colEntries g c)
    have hlenvals : ((List.insertionSort (fun a b : Nat × Nat => a.2 ≤ b.2)
        (PlateGenerator.colEntries g c)).map (fun e => e.2)).length =
        ((PlateGenerator.colEntries g c).map Prod.fst).length := by
      rw [List.length_map, List.length_map]
      exact hpermE.length_eq
    have hS : PlateGenerator.sortOneColumn g c =
        (((PlateGenerator.colEntries g c).map Prod.fst).zip
          ((List.insertionSort (fun a b : Nat × Nat => a.2 ≤ b.2)
            (PlateGenerator.colEntries g c)).map (fun e => e.2))).foldl
          (fun gg rv => PlateGenerator.setCell gg rv.1 c (some rv.2)) g := by
      unfold PlateGenerator.sortOneColumn
      rw [if_neg hshort]
      have hins : List.insertionSort (· ≤ ·)
          ((PlateGenerator.colEntries g c).map (fun e => e.1)) =
          (PlateGenerator.colEntries g c).map Prod.fst :=
        List.Sorted.insertionSort_eq hrows_sortedLE
      rw [hins]
    set pairs := ((PlateGenerator.colEntries g c).map Prod.fst).zip
      ((List.insertionSort (fun a b : Nat × Nat => a.2 ≤ b.2)
        (PlateGenerator.colEntries g c)).map (fun e => e.2)) with hpairs
    have hfst : pairs.map Prod.fst = (PlateGenerator.colEntries g c).map Prod.fst :=
      List.map_fst_zip _ _ (le_of_eq hlenvals.symm)
    have hsnd : pairs.map Prod.snd =
        (List.insertionSort (fun a b : Nat × Nat => a.2 ≤ b.2)
          (PlateGenerator.colEntries g c)).map (fun e => e.2) :=
      List.map_snd_zip _ _ (le_of_eq hlenvals)
    have hocc : ∀ pr ∈ pairs, ∃ w, PlateGenerator.getCell g pr.1 c = some w := by
      intro pr hpr
      have : pr.1 ∈ (PlateGenerator.colEntries g c).map Prod.fst := by
        rw [← hfst]
        exact List.mem_map.mpr ⟨pr, hpr, rfl⟩
      rcases List.mem_map.mp this with ⟨e, he, hee⟩
      exact ⟨e.2, by
        rw [← hee]
        exact (colEntries_mem g c e.1 e.2).mp (by simpa using he) |>.2⟩
    have hfstnodup : (pairs.map Prod.fst).Nodup := by rw [hfst]; exact hrows_nodup
    rcases writeFold_spec c pairs g hfstnodup hocc with ⟨hframe, hwrite⟩
    rw [hS]
    set S := pairs.foldl (fun gg rv => PlateGenerator.setCell gg rv.1 c (some rv.2)) g with hSdef
    have hentriesS : PlateGenerator.colEntries S c = pairs := by
      unfold PlateGenerator.colEntries
      refine filterMap_eq_of_sublist _ [0, 1, 2] pairs (by decide) ?_ ?_ ?_
      · rw [hfst]
        exact colEntries_fst_sublist g c
      · intro pr hpr
        have : PlateGenerator.getCell S pr.1 c = some pr.2 := hwrite pr.1 pr.2 (by
          rcases pr with ⟨a, b⟩
          exact hpr)
        rw [this]
        rfl
      · intro r hr hnot
        have hfr : PlateGenerator.getCell S r c = PlateGenerator.getCell g r c :=
          hframe r c (Or.inr hnot)
        rw [hfr]
        rw [colEntries_none g c r hr (by rw [← hfst]; exact hnot)]
        rfl
    have hvalsS : colValues S c =
        (List.insertionSort (fun a b : Nat × Nat => a.2 ≤ b.2)
          (PlateGenerator.colEntries g c)).map (fun e => e.2) := by
      unfold colValues
      rw [hentriesS]
      have : pairs.map (fun e => e.2) = pairs.map Prod.snd := rfl
      rw [this, hsnd]
    refine ⟨?_, ?_, ?_, ?_, ?_, ?_⟩
    · intro r k hk
      exact hframe r k (Or.inl hk)
    · intro r
      by_cases hmem : r ∈ pairs.map Prod.fst
      · rcases List.mem_map.mp hmem with ⟨pr, hpr, hpre⟩
        have hw : PlateGenerator.getCell S r c = some pr.2 := by
          rw [← hpre]
          exact hwrite pr.1 pr.2 (by rcases pr with ⟨a, b⟩; exact hpr)
        rcases hocc pr hpr with ⟨w, hgw⟩
        rw [hpre] at hgw
        rw [hw, hgw]
        simp
      · rw [hframe r c (Or.inr hmem)]
    · rw [hvalsS]
      unfold colValues
      exact hpermE.map (fun e => e.2)
    · intro hnd
      rw [hvalsS]
      have hsortedLE : List.Sorted (· ≤ ·)
          ((List.insertionSort (fun a b : Nat × Nat => a.2 ≤ b.2)
            (PlateGenerator.colEntries g c)).map (fun e => e.2)) :=
        List.Pairwise.map _ (fun a b h => h) hsortedE
      have hndvals : ((List.insertionSort (fun a b : Nat × Nat => a.2 ≤ b.2)
          (PlateGenerator.colEntries g c)).map (fun e => e.2)).Nodup := by
        have hpermvals : ((List.insertionSort (fun a b : Nat × Nat => a.2 ≤ b.2)
            (PlateGenerator.colEntries g c)).map (fun e => e.2)).Perm (colValues g c) :=
          hpermE.map (fun e => e.2)
        exact hpermvals.symm.nodup hnd
      exact List.Pairwise.imp (fun h => lt_of_le_of_ne h.1 h.2) (hsortedLE.and hndvals)
    · exact writeFold_length c pairs g
    · exact writeFold_rowlen c pairs g

lemma colEntries_congr (g1 g2 : BankoGrid) (k : Nat)
    (h : ∀ r : Nat, PlateGenerator.getCell g1 r k = PlateGenerator.getCell g2 r k) :
    PlateGenerator.colEntries g1 k = PlateGenerator.colEntries g2 k := by
  unfold PlateGenerator.colEntries
  have hf : (fun row : Nat => (PlateGenerator.getCell g1 row k).map (fun v => (row, v))) =
      (fun row : Nat => (PlateGenerator.getCell g2 row k).map (fun v => (row, v))) :=
    funext (fun r => by rw [h r])
  rw [hf]

lemma colValues_congr (g1 g2 : BankoGrid) (k : Nat)
    (h : ∀ r : Nat, PlateGenerator.getCell g1 r k = PlateGenerator.getCell g2 r k) :
    colValues g1 k = colValues g2 k := by
  unfold colValues
  rw [colEntries_congr g1 g2 k h]

lemma sortOneColumn_occ (g : BankoGrid) (c : Nat) (r k : Nat) :
    PlateGenerator.getCell (PlateGenerator.sortOneColumn g c) r k = none ↔
      PlateGenerator.getCell g r k = none := by
  by_cases hk : k = c
  · subst hk
    exact (sortOneColumn_spec g k).2.1 r
  · rw [(sortOneColumn_spec g c).1 r k hk]

lemma sortOneColumn_values_perm (g : BankoGrid) (c k : Nat) :
    (colValues (PlateGenerator.sortOneColumn g c) k).Perm (colValues g k) := by
  by_cases hk : k = c
  · subst hk
    exact (sortOneColumn_spec g k).2.2.1
  · rw [colValues_congr _ _ k (fun r => (sortOneColumn_spec g c).1 r k hk)]

lemma foldl_sortOneColumn_spec (cols : List Nat) :
    ∀ (g : BankoGrid),
      (∀ (r k : Nat),
          PlateGenerator.getCell (cols.foldl PlateGenerator.sortOneColumn g) r k = none ↔
            PlateGenerator.getCell g r k = none)
      ∧ (∀ (c : Nat),
          (colValues (cols.foldl PlateGenerator.sortOneColumn g) c).Perm (colValues g c))
      ∧ (cols.foldl PlateGenerator.sortOneColumn g).length = g.length
      ∧ (∀ (i : Nat),
          ((cols.foldl PlateGenerator.sortOneColumn g)[i]?).map List.length =
            (g[i]?).map List.length)
      ∧ (∀ (c : Nat), c ∉ cols →
          colValues (cols.foldl PlateGenerator.sortOneColumn g) c = colValues g c) := by
  induction cols with
  | nil =>
    intro g
    exact ⟨fun r k => Iff.rfl, fun c => List.Perm.refl _, rfl, fun i => rfl, fun c _ => rfl⟩
  | cons a rest ih =>
    intro g
    rw [List.foldl_cons]
    rcases ih (PlateGenerator.sortOneColumn g a) with ⟨hocc, hperm, hlen, hrowlen, hunch⟩
    refine ⟨?_, ?_, ?_, ?_, ?_⟩
    · intro r k
      exact (hocc r k).trans (sortOneColumn_occ g a r k)
    · intro c
      exact (hperm c).trans (sortOneColumn_values_perm g a c)
    · rw [hlen]
      exact (sortOneColumn_spec g a).2.2.2.2.1
    · intro i
      rw [hrowlen i]
      exact (sortOneColumn_spec g a).2.2.2.2.2 i
    · intro c hc
      have hca : c ≠ a := fun h => hc (h ▸ List.mem_cons_self a rest)
      have hcr : c ∉ rest := fun h => hc (List.mem_cons_of_mem a h)
      rw [hunch c hcr]
      exact colValues_congr _ _ c (fun r => (sortOneColumn_spec g a).1 r c hca)

lemma range9_split (c : Nat) (h : c < 9) :
    List.range 9 = List.range c ++ c :: List.range' (c + 1) (8 - c) := by
  interval_cases c <;> decide

lemma colValues_nil_of_wide (g : BankoGrid) (c : Nat)
    (hcols : ∀ row ∈ g, row.length ≤ 9) (hc : 9 ≤ c) : colValues g c = [] := by
  have hn : ∀ r : Nat, PlateGenerator.getCell g r c = none := by
    intro r
    unfold PlateGenerator.getCell
    rcases hg : g[r]? with _ | row
    · rfl
    · have hlen : row.length ≤ 9 := hcols row (List.getElem?_mem hg)
      have hnone : row[c]? = none := List.getElem?_eq_none (le_trans hlen hc)
      dsimp only
      rw [hnone]
  unfold colValues PlateGenerator.colEntries
  rw [filterMap_eq_nil_of_none _ [0, 1, 2] (fun r _ => by rw [hn r]; rfl)]
  rfl

/-- C9: `sortColumnsAscending` changes only the values inside each column's
already-occupied cells: the grid shape (row count and row lengths) and the set of
occupied (row, column) cells are unchanged, each column's multiset of values is
unchanged, and afterwards every column whose occupied values are pairwise distinct
reads strictly increasing from the top occupied row to the bottom occupied row. -/
theorem sortColumnsAscending_spec (g : BankoGrid)
    (hcols : ∀ row ∈ g, row.length ≤ 9) :
    (∀ (r k : Nat),
        PlateGenerator.getCell (PlateGenerator.sortColumnsAscending g) r k = none ↔
          PlateGenerator.getCell g r k = none)
    ∧ (∀ (c : Nat),
        (colValues (PlateGenerator.sortColumnsAscending g) c).Perm (colValues g c))
    ∧ (PlateGenerator.sortColumnsAscending g).length = g.length
    ∧ (∀ (i : Nat),
        ((PlateGenerator.sortColumnsAscending g)[i]?).map List.length =
          (g[i]?).map List.length)
    ∧ (∀ (c : Nat), (colValues g c).Nodup →
        List.Sorted (· < ·) (colValues (PlateGenerator.sortColumnsAscending g) c)) := by
  have hbase := foldl_sortOneColumn_spec (List.range 9) g
  refine ⟨hbase.1, hbase.2.1, hbase.2.2.1, hbase.2.2.2.1, ?_⟩
  intro c hnd
  by_cases hc : c < 9
  · have hsplit := range9_split c hc
    have hfold : PlateGenerator.sortColumnsAscending g =
        (List.range' (c + 1) (8 - c)).foldl PlateGenerator.sortOneColumn
          (PlateGenerator.sortOneColumn
            ((List.range c).foldl PlateGenerator.sortOneColumn g) c) := by
      unfold PlateGenerator.sortColumnsAscending
      rw [hsplit, List.foldl_append, List.foldl_cons]
    rw [hfold]
    set g1 := (List.range c).foldl PlateGenerator.sortOneColumn g with hg1
    have h1 : colValues g1 c = colValues g c :=
      (foldl_sortOneColumn_spec (List.range c) g).2.2.2.2 c (by
        intro hmem
        exact absurd (List.mem_range.mp hmem) (lt_irrefl c))
    have h2 : List.Sorted (· < ·) (colValues (PlateGenerator.sortOneColumn g1 c) c) :=
      (sortOneColumn_spec g1 c).2.2.2.1 (by rw [h1]; exact hnd)
    have h3 : colValues ((List.range' (c + 1) (8 - c)).foldl PlateGenerator.sortOneColumn
        (PlateGenerator.sortOneColumn g1 c)) c =
        colValues (PlateGenerator.sortOneColumn g1 c) c :=
      (foldl_sortOneColumn_spec (List.range' (c + 1) (8 - c)) _).2.2.2.2 c (by
        intro hmem
        have hle := (List.mem_range'_1.mp hmem).1
        omega)
    rw [h3]
    exact h2
  · have hnil : colValues g c = [] := colValues_nil_of_wide g c hcols (le_of_not_lt hc)
    have hperm := hbase.2.1 c
    rw [hnil] at hperm
    have hdef : PlateGenerator.sortColumnsAscending g =
        (List.range 9).foldl PlateGenerator.sortOneColumn g := rfl
    rw [hdef, List.perm_nil.mp hperm]
    exact List.sorted_nil

/-- Concrete 3x9 grid with unsorted columns for the C9 witness. -/
def gW9 : BankoGrid :=
  [[some 5, none, some 22, none, none, none, none, none, none],
   [some 3, some 11, none, none, none, none, none, none, none],
   [some 8, none, some 21, none, none, none, none, none, none]]

/-- Witness for C9 at a concrete grid. -/
theorem sortColumnsAscending_spec_witness :
    (∀ row ∈ gW9, row.length ≤ 9)
    ∧ ((∀ (r k : Nat),
        PlateGenerator.getCell (PlateGenerator.sortColumnsAscending gW9) r k = none ↔
          PlateGenerator.getCell gW9 r k = none)
    ∧ (∀ (c : Nat),
        (colValues (PlateGenerator.sortColumnsAscending gW9) c).Perm (colValues gW9 c))
    ∧ (PlateGenerator.sortColumnsAscending gW9).length = gW9.length
    ∧ (∀ (i : Nat),
        ((PlateGenerator.sortColumnsAscending gW9)[i]?).map List.length =
          (gW9[i]?).map List.length)
    ∧ (∀ (c : Nat), (colValues gW9 c).Nodup →
        List.Sorted (· < ·) (colValues (PlateGenerator.sortColumnsAscending gW9) c))) :=
  ⟨by decide, sortColumnsAscending_spec gW9 (by decide)⟩
